import Mathlib

/-!
Verification of the Solend token-lending SDK reserve engine
(`token-lending/sdk/src/state/reserve.rs`).

The reserve state machine, its borrow/repay/liquidation calculators and the
binary account layout are embedded from the source file.  The fixed-point
math types `Decimal` and `Rate`, and the auxiliary state types
(`LastUpdate`, `RateLimiter`, `Obligation`) live in sibling modules of the
same crate that are not part of the extracted sources; they are modelled
from the specification (§4.1, §4.2, §3) and their doc comments say so.

Machine integers are embedded as `Nat` with explicit `2 ^ 64` / `2 ^ 128` /
`2 ^ 192` bounds where overflow matters; fallible operations return
`Except ProgramError`.
-/

/-- WAD is the fixed-point scale: one unit is 10^18 scaled units. -/
def WAD : Nat := 10 ^ 18

/-- Scale of one percent, 10^16 scaled units. -/
def PERCENT_SCALER : Nat := 10 ^ 16

/-- Scale of one basis point, 10^14 scaled units. -/
def BPS_SCALER : Nat := 10 ^ 14

/-- Modulus of the unsigned 192-bit backing integer of a Decimal. -/
def U192_MOD : Nat := 2 ^ 192

/-- Modulus of the unsigned 128-bit backing integer of a Rate. -/
def U128_MOD : Nat := 2 ^ 128

/-- Modulus of a u64. -/
def U64_MOD : Nat := 2 ^ 64

/-- Largest u64 value; `calculate_borrow`, `calculate_repay` and
`calculate_liquidation` treat it as the borrow-max / repay-all sentinel. -/
def U64_MAX : Nat := 2 ^ 64 - 1

/-- Percentage of an obligation that can be repaid during each liquidation
call (`LIQUIDATION_CLOSE_FACTOR` in reserve.rs). -/
def LIQUIDATION_CLOSE_FACTOR : Nat := 20

/-- Maximum quote currency value that can be liquidated in one call
(`MAX_LIQUIDATABLE_VALUE_AT_ONCE` in reserve.rs). -/
def MAX_LIQUIDATABLE_VALUE_AT_ONCE : Nat := 500000

/-- Maximum bonus received during liquidation, as a percentage,
protocol fee included (`MAX_BONUS_PCT` in reserve.rs). -/
def MAX_BONUS_PCT : Nat := 25

/-- Maximum protocol liquidation fee in deca-bps
(`MAX_PROTOCOL_LIQUIDATION_FEE_DECA_BPS` in reserve.rs). -/
def MAX_PROTOCOL_LIQUIDATION_FEE_DECA_BPS : Nat := 50

/-- Modelled from the spec: the program version constant of the lending
program (`PROGRAM_VERSION`, declared in the state module that is not among
the extracted sources). -/
def PROGRAM_VERSION : Nat := 1

/-- Modelled from the spec: the initial collateral exchange rate, one
collateral unit per liquidity unit, as a scaled Rate value
(`INITIAL_COLLATERAL_RATE`, declared outside the extracted sources). -/
def INITIAL_COLLATERAL_RATE : Nat := WAD

/-- Modelled from the spec: `SLOTS_PER_YEAR` is a fixed constant, the
slot-time convention of the host chain (2 slots per second). -/
def SLOTS_PER_YEAR : Nat := 63072000

/-- Errors of the lending engine (spec §7). -/
inductive LendingError where
  | MathOverflow
  | InvalidConfig
  | ObligationHealthy
  | LiquidationTooSmall
  | BorrowTooSmall
  | BorrowTooLarge
  | InsufficientLiquidity
  deriving DecidableEq

/-- Solana program errors: a lending error code or a malformed account. -/
inductive ProgramError where
  | lendingErr (e : LendingError)
  | invalidAccountData
  deriving DecidableEq

/-- Shorthand for the arithmetic failure every checked math operation
propagates. -/
def mathOverflow {α : Type} : Except ProgramError α :=
  .error (.lendingErr .MathOverflow)

/-- Equality of fallible results is decidable, so concrete runs of the
embedded functions can be checked by `decide`. -/
instance exceptDecEq {ε α : Type} [DecidableEq ε] [DecidableEq α] :
    DecidableEq (Except ε α) := fun x y =>
  match x, y with
  | .ok a, .ok b =>
    if h : a = b then isTrue (by rw [h])
    else isFalse (by intro hh; injection hh; contradiction)
  | .error a, .error b =>
    if h : a = b then isTrue (by rw [h])
    else isFalse (by intro hh; injection hh; contradiction)
  | .ok _, .error _ => isFalse (by intro hh; injection hh)
  | .error _, .ok _ => isFalse (by intro hh; injection hh)

/-- Modelled from the spec (§4.1): `D`, an unsigned fixed-point decimal with
18 fractional digits stored in 192 bits.  `val` is the scaled value, the
represented number times 10^18. -/
structure Decimal where
  val : Nat
  deriving DecidableEq

/-- Modelled from the spec (§4.1): `R`, an unsigned fixed-point rate with
18 fractional digits stored in 128 bits. -/
structure Rate where
  val : Nat
  deriving DecidableEq

/-- Modelled from the spec: the Decimal zero. -/
def Decimal.zero : Decimal := ⟨0⟩

/-- Modelled from the spec: the Decimal one. -/
def Decimal.one : Decimal := ⟨WAD⟩

/-- Modelled from the spec: conversion of an integer token amount into a
Decimal (`Decimal::from(u64)`); cannot overflow 192 bits. -/
def Decimal.fromNat (n : Nat) : Decimal := ⟨n * WAD⟩

/-- Modelled from the spec: `Decimal::from_percent`. -/
def Decimal.from_percent (p : Nat) : Decimal := ⟨p * PERCENT_SCALER⟩

/-- Modelled from the spec: `Decimal::from_bps`. -/
def Decimal.from_bps (b : Nat) : Decimal := ⟨b * BPS_SCALER⟩

/-- Modelled from the spec: `Decimal::from_deca_bps`; one deca-bp is ten
basis points. -/
def Decimal.from_deca_bps (d : Nat) : Decimal := ⟨d * 10 * BPS_SCALER⟩

/-- Modelled from the spec: `Decimal::from_scaled_val`. -/
def Decimal.from_scaled_val (v : Nat) : Decimal := ⟨v⟩

/-- Modelled from the spec: checked addition, failing with `MathOverflow`
past 192 bits. -/
def Decimal.try_add (a b : Decimal) : Except ProgramError Decimal :=
  if a.val + b.val < U192_MOD then .ok ⟨a.val + b.val⟩ else mathOverflow

/-- Modelled from the spec: checked subtraction, failing on underflow. -/
def Decimal.try_sub (a b : Decimal) : Except ProgramError Decimal :=
  if b.val ≤ a.val then .ok ⟨a.val - b.val⟩ else mathOverflow

/-- Modelled from the spec: checked multiplication of two Decimals; the
full product must fit in 192 bits before the rescaling floor division. -/
def Decimal.try_mul (a b : Decimal) : Except ProgramError Decimal :=
  if a.val * b.val < U192_MOD then .ok ⟨a.val * b.val / WAD⟩ else mathOverflow

/-- Modelled from the spec: checked multiplication by an integer. -/
def Decimal.try_mul_nat (a : Decimal) (n : Nat) : Except ProgramError Decimal :=
  if a.val * n < U192_MOD then .ok ⟨a.val * n⟩ else mathOverflow

/-- Modelled from the spec: checked division; the scaling multiply must fit
in 192 bits, and dividing by zero fails. -/
def Decimal.try_div (a b : Decimal) : Except ProgramError Decimal :=
  if a.val * WAD < U192_MOD then
    if b.val = 0 then mathOverflow else .ok ⟨a.val * WAD / b.val⟩
  else mathOverflow

/-- Modelled from the spec: `floor_u64`, the integer part, failing when it
does not fit in a u64. -/
def Decimal.try_floor_u64 (a : Decimal) : Except ProgramError Nat :=
  if a.val / WAD < U64_MOD then .ok (a.val / WAD) else mathOverflow

/-- Modelled from the spec: `ceil_u64`, rounding up, failing when the
result does not fit in a u64 or the biased sum overflows 192 bits. -/
def Decimal.try_ceil_u64 (a : Decimal) : Except ProgramError Nat :=
  if a.val + (WAD - 1) < U192_MOD then
    if (a.val + (WAD - 1)) / WAD < U64_MOD then .ok ((a.val + (WAD - 1)) / WAD)
    else mathOverflow
  else mathOverflow

/-- Modelled from the spec: `round_u64`, rounding half up. -/
def Decimal.try_round_u64 (a : Decimal) : Except ProgramError Nat :=
  if a.val + WAD / 2 < U192_MOD then
    if (a.val + WAD / 2) / WAD < U64_MOD then .ok ((a.val + WAD / 2) / WAD)
    else mathOverflow
  else mathOverflow

/-- Modelled from the spec: minimum of two Decimals. -/
def Decimal.minD (a b : Decimal) : Decimal := if a.val ≤ b.val then a else b

/-- Modelled from the spec: maximum of two Decimals. -/
def Decimal.maxD (a b : Decimal) : Decimal := if a.val ≤ b.val then b else a

/-- Modelled from the spec: the Rate zero. -/
def Rate.zero : Rate := ⟨0⟩

/-- Modelled from the spec: the Rate one. -/
def Rate.one : Rate := ⟨WAD⟩

/-- Modelled from the spec: `Rate::from_percent(u8)`. -/
def Rate.from_percent (p : Nat) : Rate := ⟨p * PERCENT_SCALER⟩

/-- Modelled from the spec: `Rate::from_percent_u64`. -/
def Rate.from_percent_u64 (p : Nat) : Rate := ⟨p * PERCENT_SCALER⟩

/-- Modelled from the spec: `Rate::from_scaled_val(u64)`. -/
def Rate.from_scaled_val (v : Nat) : Rate := ⟨v⟩

/-- Modelled from the spec: checked Rate addition, 128-bit. -/
def Rate.try_add (a b : Rate) : Except ProgramError Rate :=
  if a.val + b.val < U128_MOD then .ok ⟨a.val + b.val⟩ else mathOverflow

/-- Modelled from the spec: checked Rate subtraction. -/
def Rate.try_sub (a b : Rate) : Except ProgramError Rate :=
  if b.val ≤ a.val then .ok ⟨a.val - b.val⟩ else mathOverflow

/-- Modelled from the spec: checked Rate multiplication; the full product
must fit in 128 bits before the rescaling floor division. -/
def Rate.try_mul (a b : Rate) : Except ProgramError Rate :=
  if a.val * b.val < U128_MOD then .ok ⟨a.val * b.val / WAD⟩ else mathOverflow

/-- Modelled from the spec: checked Rate division by a Rate. -/
def Rate.try_div (a b : Rate) : Except ProgramError Rate :=
  if a.val * WAD < U128_MOD then
    if b.val = 0 then mathOverflow else .ok ⟨a.val * WAD / b.val⟩
  else mathOverflow

/-- Modelled from the spec: checked Rate division by an integer. -/
def Rate.try_div_nat (a : Rate) (n : Nat) : Except ProgramError Rate :=
  if n = 0 then mathOverflow else .ok ⟨a.val / n⟩

/-- Modelled from the spec: binary exponentiation worker for `try_pow`.
The fuel argument only forces structural termination; `n` itself is always
enough fuel because the exponent at least halves on every call. -/
def Rate.try_pow_fuel : Nat → Rate → Nat → Except ProgramError Rate
  | 0, _, _ => .ok Rate.one
  | fuel + 1, b, n =>
    if n = 0 then .ok Rate.one
    else do
      let half ← Rate.try_pow_fuel fuel b (n / 2)
      let sq ← half.try_mul half
      if n % 2 = 1 then sq.try_mul b else .ok sq

/-- Modelled from the spec: `R.try_pow(n)` computes `base ^ n` by binary
exponentiation. -/
def Rate.try_pow (b : Rate) (n : Nat) : Except ProgramError Rate :=
  Rate.try_pow_fuel n b n

/-- Modelled from the spec: widening conversion of a Rate into a Decimal,
always exact. -/
def Decimal.fromRate (r : Rate) : Decimal := ⟨r.val⟩

/-- Modelled from the spec: conversion `D → R`, failing when the scaled
value exceeds 128 bits. -/
def Rate.try_from (d : Decimal) : Except ProgramError Rate :=
  if d.val < U128_MOD then .ok ⟨d.val⟩ else mathOverflow

/-- Decimal times Rate, as the source's `TryMul<Rate> for Decimal`:
the rate is widened to a Decimal first. -/
def Decimal.try_mul_rate (a : Decimal) (r : Rate) : Except ProgramError Decimal :=
  a.try_mul (Decimal.fromRate r)

/-- Decimal divided by Rate, as the source's `TryDiv<Rate> for Decimal`. -/
def Decimal.try_div_rate (a : Decimal) (r : Rate) : Except ProgramError Decimal :=
  a.try_div (Decimal.fromRate r)

/-- Public keys are 32-byte identifiers; they are embedded as naturals
below 2^256 (`Pubkey`). -/
abbrev Pubkey := Nat

/-- Checked subtraction on machine integers
(`checked_sub(..).ok_or(LendingError::MathOverflow)`). -/
def checked_sub_nat (a b : Nat) : Except ProgramError Nat :=
  if b ≤ a then .ok (a - b) else mathOverflow

/-- Modelled from the spec: `last_update = (slot, stale)` of a reserve or
obligation (the `LastUpdate` type lives outside the extracted sources). -/
structure LastUpdate where
  slot : Nat
  stale : Bool
  deriving DecidableEq

/-- Modelled from the spec: slots elapsed since the last update, a checked
subtraction `now_slot - last_update.slot`. -/
def LastUpdate.slots_elapsed (lu : LastUpdate) (current_slot : Nat) :
    Except ProgramError Nat :=
  checked_sub_nat current_slot lu.slot

/-- Modelled from the spec (§4.2): rate limiter configuration, window
length `W` in slots and max outflow `M`. -/
structure RateLimiterConfig where
  window_duration : Nat
  max_outflow : Nat
  deriving DecidableEq

/-- Modelled from the spec (§4.2): rate limiter state — configuration,
previous-window quantity, current window start and current quantity
(the `RateLimiter` type lives outside the extracted sources). -/
structure RateLimiter where
  config : RateLimiterConfig
  prev_qty : Decimal
  window_start : Nat
  cur_qty : Decimal
  deriving DecidableEq

/-- Reserve liquidity (struct `ReserveLiquidity` in reserve.rs). -/
structure ReserveLiquidity where
  mint_pubkey : Pubkey
  mint_decimals : Nat
  supply_pubkey : Pubkey
  pyth_oracle_pubkey : Pubkey
  switchboard_oracle_pubkey : Pubkey
  available_amount : Nat
  borrowed_amount_wads : Decimal
  cumulative_borrow_rate_wads : Decimal
  accumulated_protocol_fees_wads : Decimal
  market_price : Decimal
  smoothed_market_price : Decimal
  deriving DecidableEq

/-- Reserve collateral (struct `ReserveCollateral` in reserve.rs). -/
structure ReserveCollateral where
  mint_pubkey : Pubkey
  mint_total_supply : Nat
  supply_pubkey : Pubkey
  deriving DecidableEq

/-- Fee configuration of a reserve (struct `ReserveFees` in reserve.rs). -/
structure ReserveFees where
  borrow_fee_wad : Nat
  flash_loan_fee_wad : Nat
  host_fee_percentage : Nat
  deriving DecidableEq

/-- Asset type of the reserve (enum `ReserveType` in reserve.rs). -/
inductive ReserveType where
  | Regular
  | Isolated
  deriving DecidableEq

/-- Reserve configuration values (struct `ReserveConfig` in reserve.rs). -/
structure ReserveConfig where
  optimal_utilization_rate : Nat
  max_utilization_rate : Nat
  loan_to_value_ratio : Nat
  liquidation_bonus : Nat
  max_liquidation_bonus : Nat
  liquidation_threshold : Nat
  max_liquidation_threshold : Nat
  min_borrow_rate : Nat
  optimal_borrow_rate : Nat
  max_borrow_rate : Nat
  super_max_borrow_rate : Nat
  fees : ReserveFees
  deposit_limit : Nat
  borrow_limit : Nat
  fee_receiver : Pubkey
  protocol_liquidation_fee : Nat
  protocol_take_rate : Nat
  added_borrow_weight_bps : Nat
  reserve_type : ReserveType
  deriving DecidableEq

/-- Lending market reserve state (struct `Reserve` in reserve.rs). -/
structure Reserve where
  version : Nat
  last_update : LastUpdate
  lending_market : Pubkey
  liquidity : ReserveLiquidity
  collateral : ReserveCollateral
  config : ReserveConfig
  rate_limiter : RateLimiter
  deriving DecidableEq

/-- Modelled from the spec (§3): one collateral line item of an obligation
(struct `ObligationCollateral`, declared outside the extracted sources). -/
structure ObligationCollateral where
  deposit_reserve : Pubkey
  deposited_amount : Nat
  market_value : Decimal
  deriving DecidableEq

/-- Modelled from the spec (§3): one borrow line item of an obligation
(struct `ObligationLiquidity`, declared outside the extracted sources). -/
structure ObligationLiquidity where
  borrow_reserve : Pubkey
  cumulative_borrow_rate_wads : Decimal
  borrowed_amount_wads : Decimal
  market_value : Decimal
  deriving DecidableEq

/-- Modelled from the spec (§3): a borrower's cross-margined position
(struct `Obligation`, declared outside the extracted sources). -/
structure Obligation where
  version : Nat
  last_update : LastUpdate
  lending_market : Pubkey
  owner : Pubkey
  deposits : List ObligationCollateral
  borrows : List ObligationLiquidity
  deposited_value : Decimal
  borrowed_value : Decimal
  borrowed_value_upper_bound : Decimal
  allowed_borrow_value : Decimal
  unhealthy_borrow_value : Decimal
  super_unhealthy_borrow_value : Decimal
  borrowing_isolated_asset : Bool
  closeable : Bool
  deriving DecidableEq

/-- Result of `Reserve::calculate_borrow`
(struct `CalculateBorrowResult` in reserve.rs). -/
structure CalculateBorrowResult where
  borrow_amount : Decimal
  receive_amount : Nat
  borrow_fee : Nat
  host_fee : Nat
  deriving DecidableEq

/-- Result of `Reserve::calculate_repay`
(struct `CalculateRepayResult` in reserve.rs). -/
structure CalculateRepayResult where
  settle_amount : Decimal
  repay_amount : Nat
  deriving DecidableEq

/-- Result of `Reserve::calculate_liquidation`
(struct `CalculateLiquidationResult` in reserve.rs). -/
structure CalculateLiquidationResult where
  settle_amount : Decimal
  repay_amount : Nat
  withdraw_amount : Nat
  bonus_rate : Decimal
  deriving DecidableEq

/-- Fee computation mode (enum `FeeCalculation` in reserve.rs). -/
inductive FeeCalculation where
  | Exclusive
  | Inclusive
  deriving DecidableEq

/-- Total reserve supply including active loans:
`available + borrowed - protocol fees` (`ReserveLiquidity::total_supply`). -/
def ReserveLiquidity.total_supply (liq : ReserveLiquidity) :
    Except ProgramError Decimal := do
  let s ← (Decimal.fromNat liq.available_amount).try_add liq.borrowed_amount_wads
  s.try_sub liq.accumulated_protocol_fees_wads

/-- Add liquidity to the available amount, with a u64 overflow check
(`ReserveLiquidity::deposit`). -/
def ReserveLiquidity.deposit (liq : ReserveLiquidity) (liquidity_amount : Nat) :
    Except ProgramError ReserveLiquidity :=
  if liq.available_amount + liquidity_amount < U64_MOD then
    .ok { liq with available_amount := liq.available_amount + liquidity_amount }
  else mathOverflow

/-- Remove liquidity from the available amount
(`ReserveLiquidity::withdraw`). -/
def ReserveLiquidity.withdraw (liq : ReserveLiquidity) (liquidity_amount : Nat) :
    Except ProgramError ReserveLiquidity :=
  if liq.available_amount < liquidity_amount then
    .error (.lendingErr .InsufficientLiquidity)
  else
    .ok { liq with available_amount := liq.available_amount - liquidity_amount }

/-- Liquidity utilization rate of the reserve
(`ReserveLiquidity::utilization_rate`).  Zero when the total supply or the
borrowed amount is zero, else `borrowed / (borrowed + available)`. -/
def ReserveLiquidity.utilization_rate (liq : ReserveLiquidity) :
    Except ProgramError Rate := do
  let total_supply ← liq.total_supply
  if total_supply = Decimal.zero ∨ liq.borrowed_amount_wads = Decimal.zero then
    .ok Rate.zero
  else do
    let denominator ←
      liq.borrowed_amount_wads.try_add (Decimal.fromNat liq.available_amount)
    let q ← liq.borrowed_amount_wads.try_div denominator
    Rate.try_from q

/-- Compound the borrow rate over the elapsed slots, growing the cumulative
borrow rate, the protocol fees and the borrowed amount
(`ReserveLiquidity::compound_interest`). -/
def ReserveLiquidity.compound_interest (liq : ReserveLiquidity)
    (current_borrow_rate : Rate) (slots_elapsed : Nat) (take_rate : Rate) :
    Except ProgramError ReserveLiquidity := do
  let slot_interest_rate ← current_borrow_rate.try_div_nat SLOTS_PER_YEAR
  let base ← Rate.one.try_add slot_interest_rate
  let compounded_interest_rate ← base.try_pow slots_elapsed
  let new_cumulative ←
    liq.cumulative_borrow_rate_wads.try_mul_rate compounded_interest_rate
  let grown ← liq.borrowed_amount_wads.try_mul_rate compounded_interest_rate
  let net_new_debt ← grown.try_sub liq.borrowed_amount_wads
  let fee_part ← net_new_debt.try_mul_rate take_rate
  let new_fees ← fee_part.try_add liq.accumulated_protocol_fees_wads
  let new_borrowed ← liq.borrowed_amount_wads.try_add net_new_debt
  .ok { liq with
        cumulative_borrow_rate_wads := new_cumulative,
        accumulated_protocol_fees_wads := new_fees,
        borrowed_amount_wads := new_borrowed }

/-- Add collateral to the total supply (`ReserveCollateral::mint`). -/
def ReserveCollateral.mint (col : ReserveCollateral) (collateral_amount : Nat) :
    Except ProgramError ReserveCollateral :=
  if col.mint_total_supply + collateral_amount < U64_MOD then
    .ok { col with mint_total_supply := col.mint_total_supply + collateral_amount }
  else mathOverflow

/-- Remove collateral from the total supply (`ReserveCollateral::burn`). -/
def ReserveCollateral.burn (col : ReserveCollateral) (collateral_amount : Nat) :
    Except ProgramError ReserveCollateral :=
  if collateral_amount ≤ col.mint_total_supply then
    .ok { col with mint_total_supply := col.mint_total_supply - collateral_amount }
  else mathOverflow

/-- Exchange rate between collateral and liquidity
(struct `CollateralExchangeRate` in reserve.rs). -/
structure CollateralExchangeRate where
  rate : Rate
  deriving DecidableEq

/-- Current collateral exchange rate: the initial rate when either side is
empty, else `mint_total_supply / total_liquidity`
(`ReserveCollateral::exchange_rate`). -/
def ReserveCollateral.exchange_rate (col : ReserveCollateral)
    (total_liquidity : Decimal) : Except ProgramError CollateralExchangeRate :=
  if col.mint_total_supply = 0 ∨ total_liquidity = Decimal.zero then
    .ok ⟨Rate.from_scaled_val INITIAL_COLLATERAL_RATE⟩
  else do
    let q ← (Decimal.fromNat col.mint_total_supply).try_div total_liquidity
    let rate ← Rate.try_from q
    .ok ⟨rate⟩

/-- Convert collateral to a fractional liquidity amount
(`CollateralExchangeRate::decimal_collateral_to_liquidity`). -/
def CollateralExchangeRate.decimal_collateral_to_liquidity
    (e : CollateralExchangeRate) (collateral_amount : Decimal) :
    Except ProgramError Decimal :=
  collateral_amount.try_div_rate e.rate

/-- Convert collateral units to liquidity units, flooring
(`CollateralExchangeRate::collateral_to_liquidity`). -/
def CollateralExchangeRate.collateral_to_liquidity
    (e : CollateralExchangeRate) (collateral_amount : Nat) :
    Except ProgramError Nat := do
  let d ← e.decimal_collateral_to_liquidity (Decimal.fromNat collateral_amount)
  d.try_floor_u64

/-- Convert liquidity to a fractional collateral amount
(`CollateralExchangeRate::decimal_liquidity_to_collateral`). -/
def CollateralExchangeRate.decimal_liquidity_to_collateral
    (e : CollateralExchangeRate) (liquidity_amount : Decimal) :
    Except ProgramError Decimal :=
  liquidity_amount.try_mul_rate e.rate

/-- Convert liquidity units to collateral units, flooring
(`CollateralExchangeRate::liquidity_to_collateral`). -/
def CollateralExchangeRate.liquidity_to_collateral
    (e : CollateralExchangeRate) (liquidity_amount : Nat) :
    Except ProgramError Nat := do
  let d ← e.decimal_liquidity_to_collateral (Decimal.fromNat liquidity_amount)
  d.try_floor_u64

/-- Checked power of ten that must fit a u64
(`10u64.checked_pow(mint_decimals)` in `calculate_borrow`). -/
def pow10_u64 (d : Nat) : Except ProgramError Nat :=
  if 10 ^ d < U64_MOD then .ok (10 ^ d) else mathOverflow

/-- Checked power of ten that must fit a u128
(`10u128.checked_pow(mint_decimals)` in the valuation helpers). -/
def pow10_u128 (d : Nat) : Except ProgramError Nat :=
  if 10 ^ d < U128_MOD then .ok (10 ^ d) else mathOverflow

/-- Borrow weight `1 + added_borrow_weight_bps / 10000`
(`Reserve::borrow_weight`).  The checked addition of the source's
`unwrap()` cannot overflow 192 bits for any u64 bps value, so the result
is total. -/
def Reserve.borrow_weight (r : Reserve) : Decimal :=
  ⟨WAD + r.config.added_borrow_weight_bps * BPS_SCALER⟩

/-- Market value of a token amount at the spot price
(`Reserve::market_value`). -/
def Reserve.market_value (r : Reserve) (liquidity_amount : Decimal) :
    Except ProgramError Decimal := do
  let num ← r.liquidity.market_price.try_mul liquidity_amount
  let p ← pow10_u128 r.liquidity.mint_decimals
  num.try_div (Decimal.fromNat p)

/-- Upper-bound market value, using the larger of the spot and smoothed
prices (`Reserve::market_value_upper_bound`). -/
def Reserve.market_value_upper_bound (r : Reserve) (liquidity_amount : Decimal) :
    Except ProgramError Decimal := do
  let price_upper_bound :=
    Decimal.maxD r.liquidity.market_price r.liquidity.smoothed_market_price
  let num ← price_upper_bound.try_mul liquidity_amount
  let p ← pow10_u128 r.liquidity.mint_decimals
  num.try_div (Decimal.fromNat p)

/-- Current borrow rate from the three-piece utilization curve
(`Reserve::current_borrow_rate`). -/
def Reserve.current_borrow_rate (r : Reserve) : Except ProgramError Rate := do
  let utilization_rate ← r.liquidity.utilization_rate
  let optimal_utilization_rate := Rate.from_percent r.config.optimal_utilization_rate
  let max_utilization_rate := Rate.from_percent r.config.max_utilization_rate
  if utilization_rate.val ≤ optimal_utilization_rate.val then
    let min_rate := Rate.from_percent r.config.min_borrow_rate
    if optimal_utilization_rate = Rate.zero then
      .ok min_rate
    else do
      let normalized_rate ← utilization_rate.try_div optimal_utilization_rate
      let diff ← checked_sub_nat r.config.optimal_borrow_rate r.config.min_borrow_rate
      let rate_range := Rate.from_percent diff
      let scaled ← normalized_rate.try_mul rate_range
      scaled.try_add min_rate
  else if utilization_rate.val ≤ max_utilization_rate.val then do
    let num ← utilization_rate.try_sub optimal_utilization_rate
    let den ← max_utilization_rate.try_sub optimal_utilization_rate
    let weight ← num.try_div den
    let optimal_borrow_rate := Rate.from_percent r.config.optimal_borrow_rate
    let max_borrow_rate := Rate.from_percent r.config.max_borrow_rate
    let rate_range ← max_borrow_rate.try_sub optimal_borrow_rate
    let scaled ← weight.try_mul rate_range
    scaled.try_add optimal_borrow_rate
  else do
    let num ← utilization_rate.try_sub max_utilization_rate
    let diff ← checked_sub_nat 100 r.config.max_utilization_rate
    let weightR ← num.try_div (Rate.from_percent diff)
    let weight := Decimal.fromRate weightR
    let max_borrow_rate := Rate.from_percent r.config.max_borrow_rate
    let super_max_borrow_rate := Rate.from_percent_u64 r.config.super_max_borrow_rate
    let range ← super_max_borrow_rate.try_sub max_borrow_rate
    let rate_range := Decimal.fromRate range
    let scaled ← weight.try_mul rate_range
    let summed ← scaled.try_add (Decimal.fromRate max_borrow_rate)
    Rate.try_from summed

/-- Collateral exchange rate of the whole reserve
(`Reserve::collateral_exchange_rate`). -/
def Reserve.collateral_exchange_rate (r : Reserve) :
    Except ProgramError CollateralExchangeRate := do
  let total_liquidity ← r.liquidity.total_supply
  r.collateral.exchange_rate total_liquidity

/-- Update the borrow rate and accrue interest
(`Reserve::accrue_interest`). -/
def Reserve.accrue_interest (r : Reserve) (current_slot : Nat) :
    Except ProgramError Reserve := do
  let slots_elapsed ← r.last_update.slots_elapsed current_slot
  if 0 < slots_elapsed then do
    let current_borrow_rate ← r.current_borrow_rate
    let take_rate := Rate.from_percent r.config.protocol_take_rate
    let liq ← r.liquidity.compound_interest current_borrow_rate slots_elapsed take_rate
    .ok { r with liquidity := liq }
  else
    .ok r

/-- Record deposited liquidity, returning the updated reserve and the
amount of collateral tokens to mint (`Reserve::deposit_liquidity`). -/
def Reserve.deposit_liquidity (r : Reserve) (liquidity_amount : Nat) :
    Except ProgramError (Reserve × Nat) := do
  let e ← r.collateral_exchange_rate
  let collateral_amount ← e.liquidity_to_collateral liquidity_amount
  let liq ← r.liquidity.deposit liquidity_amount
  let col ← r.collateral.mint collateral_amount
  .ok ({ r with liquidity := liq, collateral := col }, collateral_amount)

/-- Record redeemed collateral, returning the updated reserve and the
amount of liquidity to withdraw (`Reserve::redeem_collateral`). -/
def Reserve.redeem_collateral (r : Reserve) (collateral_amount : Nat) :
    Except ProgramError (Reserve × Nat) := do
  let collateral_exchange_rate ← r.collateral_exchange_rate
  let liquidity_amount ←
    collateral_exchange_rate.collateral_to_liquidity collateral_amount
  let col ← r.collateral.burn collateral_amount
  let liq ← r.liquidity.withdraw liquidity_amount
  .ok ({ r with liquidity := liq, collateral := col }, liquidity_amount)

/-- Owner and host fees on an amount (`ReserveFees::calculate_fees`). -/
def ReserveFees.calculate_fees (fees : ReserveFees) (amount : Decimal)
    (fee_wad : Nat) (fee_calculation : FeeCalculation) :
    Except ProgramError (Nat × Nat) :=
  let borrow_fee_rate := Rate.from_scaled_val fee_wad
  let host_fee_rate := Rate.from_percent fees.host_fee_percentage
  if 0 < borrow_fee_rate.val ∧ 0 < amount.val then do
    let need_to_assess_host_fee := 0 < host_fee_rate.val
    let minimum_fee : Nat := if need_to_assess_host_fee then 2 else 1
    let borrow_fee_amount ← match fee_calculation with
      | .Exclusive => amount.try_mul_rate borrow_fee_rate
      | .Inclusive => do
          let denom ← borrow_fee_rate.try_add Rate.one
          let inclusive_rate ← borrow_fee_rate.try_div denom
          amount.try_mul_rate inclusive_rate
    let borrow_fee_decimal := Decimal.maxD borrow_fee_amount (Decimal.fromNat minimum_fee)
    if amount.val ≤ borrow_fee_decimal.val then
      .error (.lendingErr .BorrowTooSmall)
    else do
      let borrow_fee ← borrow_fee_decimal.try_round_u64
      let host_fee ←
        if need_to_assess_host_fee then do
          let scaled ← borrow_fee_decimal.try_mul_rate host_fee_rate
          let rounded ← scaled.try_round_u64
          pure (Nat.max rounded 1)
        else pure 0
      .ok (borrow_fee, host_fee)
  else
    .ok (0, 0)

/-- Owner and host fees on a borrow (`ReserveFees::calculate_borrow_fees`). -/
def ReserveFees.calculate_borrow_fees (fees : ReserveFees) (borrow_amount : Decimal)
    (fee_calculation : FeeCalculation) : Except ProgramError (Nat × Nat) :=
  fees.calculate_fees borrow_amount fees.borrow_fee_wad fee_calculation

/-- Borrow liquidity up to a maximum market value
(`Reserve::calculate_borrow`). -/
def Reserve.calculate_borrow (r : Reserve) (amount_to_borrow : Nat)
    (max_borrow_value : Decimal) (remaining_reserve_borrow : Decimal) :
    Except ProgramError CalculateBorrowResult := do
  let decimals ← pow10_u64 r.liquidity.mint_decimals
  if amount_to_borrow = U64_MAX then do
    let scaled ← max_borrow_value.try_mul_nat decimals
    let priced ← scaled.try_div
      (Decimal.maxD r.liquidity.market_price r.liquidity.smoothed_market_price)
    let weighted ← priced.try_div r.borrow_weight
    let borrow_amount :=
      Decimal.minD (Decimal.minD weighted remaining_reserve_borrow)
        (Decimal.fromNat r.liquidity.available_amount)
    let feePair ← r.config.fees.calculate_borrow_fees borrow_amount .Inclusive
    let floor_amt ← borrow_amount.try_floor_u64
    let receive_amount ← checked_sub_nat floor_amt feePair.1
    .ok { borrow_amount := borrow_amount, receive_amount := receive_amount,
          borrow_fee := feePair.1, host_fee := feePair.2 }
  else do
    let receive_amount := amount_to_borrow
    let base := Decimal.fromNat receive_amount
    let feePair ← r.config.fees.calculate_borrow_fees base .Exclusive
    let borrow_amount ← base.try_add (Decimal.fromNat feePair.1)
    let mv ← r.market_value_upper_bound borrow_amount
    let borrow_value ← mv.try_mul r.borrow_weight
    if max_borrow_value.val < borrow_value.val then
      .error (.lendingErr .BorrowTooLarge)
    else
      .ok { borrow_amount := borrow_amount, receive_amount := receive_amount,
            borrow_fee := feePair.1, host_fee := feePair.2 }

/-- Repay liquidity up to the borrowed amount
(`Reserve::calculate_repay`). -/
def Reserve.calculate_repay (_r : Reserve) (amount_to_repay : Nat)
    (borrowed_amount : Decimal) : Except ProgramError CalculateRepayResult := do
  let settle_amount :=
    if amount_to_repay = U64_MAX then borrowed_amount
    else Decimal.minD (Decimal.fromNat amount_to_repay) borrowed_amount
  let repay_amount ← settle_amount.try_ceil_u64
  .ok { settle_amount := settle_amount, repay_amount := repay_amount }

/-- Liquidation bonus as a percentage, in `[0, MAX_BONUS_PCT]`
(`Reserve::calculate_bonus`). -/
def Reserve.calculate_bonus (r : Reserve) (obligation : Obligation) :
    Except ProgramError Decimal := do
  if obligation.borrowed_value.val < obligation.unhealthy_borrow_value.val then
    .error (.lendingErr .ObligationHealthy)
  else
    let liquidation_bonus := Decimal.from_percent r.config.liquidation_bonus
    let max_liquidation_bonus := Decimal.from_percent r.config.max_liquidation_bonus
    let protocol_liquidation_fee := Decimal.from_deca_bps r.config.protocol_liquidation_fee
    if obligation.unhealthy_borrow_value = obligation.super_unhealthy_borrow_value then do
      let base ← liquidation_bonus.try_add protocol_liquidation_fee
      .ok (Decimal.minD base (Decimal.from_percent MAX_BONUS_PCT))
    else do
      let num ← obligation.borrowed_value.try_sub obligation.unhealthy_borrow_value
      let den ← obligation.super_unhealthy_borrow_value.try_sub
        obligation.unhealthy_borrow_value
      let ratio := match num.try_div den with
        | .ok w => w
        | .error _ => Decimal.one
      let weight := Decimal.minD ratio Decimal.one
      let spread ← max_liquidation_bonus.try_sub liquidation_bonus
      let scaled ← weight.try_mul spread
      let partial_sum ← liquidation_bonus.try_add scaled
      let bonus ← partial_sum.try_add protocol_liquidation_fee
      .ok (Decimal.minD bonus (Decimal.from_percent MAX_BONUS_PCT))

/-- Modelled from the spec (§4.3): largest liquidatable amount of one
borrow, `min(borrowed, borrowed_value * CLOSE_FACTOR / market_value,
MAX_LIQUIDATABLE_VALUE / market_value * borrowed)`
(`Obligation::max_liquidation_amount`, declared outside the extracted
sources). -/
def Obligation.max_liquidation_amount (ob : Obligation)
    (liquidity : ObligationLiquidity) : Except ProgramError Decimal := do
  let close_value ← ob.borrowed_value.try_mul_rate
    (Rate.from_percent LIQUIDATION_CLOSE_FACTOR)
  let max_liquidation_value :=
    Decimal.minD (Decimal.minD close_value
      (Decimal.fromNat MAX_LIQUIDATABLE_VALUE_AT_ONCE)) liquidity.market_value
  let max_liquidation_pct ← max_liquidation_value.try_div liquidity.market_value
  liquidity.borrowed_amount_wads.try_mul max_liquidation_pct

/-- Liquidate some or all of an unhealthy obligation
(`Reserve::calculate_liquidation`). -/
def Reserve.calculate_liquidation (r : Reserve) (amount_to_liquidate : Nat)
    (obligation : Obligation) (liquidity : ObligationLiquidity)
    (collateral : ObligationCollateral) :
    Except ProgramError CalculateLiquidationResult := do
  let bonus ← r.calculate_bonus obligation
  let bonus_rate ← bonus.try_add Decimal.one
  let max_amount :=
    if amount_to_liquidate = U64_MAX then liquidity.borrowed_amount_wads
    else Decimal.minD (Decimal.fromNat amount_to_liquidate) liquidity.borrowed_amount_wads
  if liquidity.market_value.val ≤ Decimal.one.val then do
    let liquidation_value ← liquidity.market_value.try_mul bonus_rate
    if collateral.market_value.val < liquidation_value.val then do
      let repay_pct ← collateral.market_value.try_div liquidation_value
      let settle_amount ← liquidity.borrowed_amount_wads.try_mul repay_pct
      let repay_amount ← settle_amount.try_ceil_u64
      .ok { settle_amount := settle_amount, repay_amount := repay_amount,
            withdraw_amount := collateral.deposited_amount, bonus_rate := bonus_rate }
    else if liquidation_value.val = collateral.market_value.val then do
      let settle_amount := liquidity.borrowed_amount_wads
      let repay_amount ← settle_amount.try_ceil_u64
      .ok { settle_amount := settle_amount, repay_amount := repay_amount,
            withdraw_amount := collateral.deposited_amount, bonus_rate := bonus_rate }
    else do
      let withdraw_pct ← liquidation_value.try_div collateral.market_value
      let settle_amount := liquidity.borrowed_amount_wads
      let repay_amount ← settle_amount.try_ceil_u64
      if repay_amount = 0 then
        .error (.lendingErr .LiquidationTooSmall)
      else do
        let scaled ← (Decimal.fromNat collateral.deposited_amount).try_mul withdraw_pct
        let floored ← scaled.try_floor_u64
        let withdraw_amount := Nat.max floored 1
        .ok { settle_amount := settle_amount, repay_amount := repay_amount,
              withdraw_amount := withdraw_amount, bonus_rate := bonus_rate }
  else do
    let upper ← obligation.max_liquidation_amount liquidity
    let liquidation_amount := Decimal.minD upper max_amount
    let liquidation_pct ← liquidation_amount.try_div liquidity.borrowed_amount_wads
    let value_part ← liquidity.market_value.try_mul liquidation_pct
    let liquidation_value ← value_part.try_mul bonus_rate
    if collateral.market_value.val < liquidation_value.val then do
      let repay_pct ← collateral.market_value.try_div liquidation_value
      let settle_amount ← liquidation_amount.try_mul repay_pct
      let repay_amount ← settle_amount.try_ceil_u64
      .ok { settle_amount := settle_amount, repay_amount := repay_amount,
            withdraw_amount := collateral.deposited_amount, bonus_rate := bonus_rate }
    else if liquidation_value.val = collateral.market_value.val then do
      let settle_amount := liquidation_amount
      let repay_amount ← settle_amount.try_ceil_u64
      .ok { settle_amount := settle_amount, repay_amount := repay_amount,
            withdraw_amount := collateral.deposited_amount, bonus_rate := bonus_rate }
    else do
      let withdraw_pct ← liquidation_value.try_div collateral.market_value
      let settle_amount := liquidation_amount
      let repay_amount ← settle_amount.try_ceil_u64
      let scaled ← (Decimal.fromNat collateral.deposited_amount).try_mul withdraw_pct
      let withdraw_amount ← scaled.try_floor_u64
      .ok { settle_amount := settle_amount, repay_amount := repay_amount,
            withdraw_amount := withdraw_amount, bonus_rate := bonus_rate }

/-- Configuration validation (`validate_reserve_config` in reserve.rs). -/
def validate_reserve_config (config : ReserveConfig) :
    Except ProgramError Unit :=
  if 100 < config.optimal_utilization_rate then
    .error (.lendingErr .InvalidConfig)
  else if config.max_utilization_rate < config.optimal_utilization_rate
      ∨ 100 < config.max_utilization_rate then
    .error (.lendingErr .InvalidConfig)
  else if 100 ≤ config.loan_to_value_ratio then
    .error (.lendingErr .InvalidConfig)
  else if 100 < config.liquidation_bonus then
    .error (.lendingErr .InvalidConfig)
  else if config.max_liquidation_bonus < config.liquidation_bonus
      ∨ 100 < config.max_liquidation_bonus then
    .error (.lendingErr .InvalidConfig)
  else if config.liquidation_threshold < config.loan_to_value_ratio
      ∨ 100 < config.liquidation_threshold then
    .error (.lendingErr .InvalidConfig)
  else if config.max_liquidation_threshold < config.liquidation_threshold
      ∨ 100 < config.max_liquidation_threshold then
    .error (.lendingErr .InvalidConfig)
  else if config.optimal_borrow_rate < config.min_borrow_rate then
    .error (.lendingErr .InvalidConfig)
  else if config.max_borrow_rate < config.optimal_borrow_rate then
    .error (.lendingErr .InvalidConfig)
  else if config.super_max_borrow_rate < config.max_borrow_rate then
    .error (.lendingErr .InvalidConfig)
  else if WAD ≤ config.fees.borrow_fee_wad then
    .error (.lendingErr .InvalidConfig)
  else if 100 < config.fees.host_fee_percentage then
    .error (.lendingErr .InvalidConfig)
  else if MAX_PROTOCOL_LIQUIDATION_FEE_DECA_BPS < config.protocol_liquidation_fee then
    .error (.lendingErr .InvalidConfig)
  else if MAX_BONUS_PCT * 100 <
      config.max_liquidation_bonus * 100 + config.protocol_liquidation_fee * 10 then
    .error (.lendingErr .InvalidConfig)
  else if 100 < config.protocol_take_rate then
    .error (.lendingErr .InvalidConfig)
  else if config.reserve_type = ReserveType.Isolated
      ∧ ¬(config.loan_to_value_ratio = 0 ∧ config.liquidation_threshold = 0) then
    .error (.lendingErr .InvalidConfig)
  else
    .ok ()

/-- All-zero reserve liquidity, as Rust's derived `Default`. -/
def ReserveLiquidity.default : ReserveLiquidity :=
  { mint_pubkey := 0, mint_decimals := 0, supply_pubkey := 0,
    pyth_oracle_pubkey := 0, switchboard_oracle_pubkey := 0,
    available_amount := 0, borrowed_amount_wads := Decimal.zero,
    cumulative_borrow_rate_wads := Decimal.zero,
    accumulated_protocol_fees_wads := Decimal.zero,
    market_price := Decimal.zero, smoothed_market_price := Decimal.zero }

/-- All-zero reserve collateral, as Rust's derived `Default`. -/
def ReserveCollateral.default : ReserveCollateral :=
  { mint_pubkey := 0, mint_total_supply := 0, supply_pubkey := 0 }

/-- All-zero fee configuration, as Rust's derived `Default`. -/
def ReserveFees.default : ReserveFees :=
  { borrow_fee_wad := 0, flash_loan_fee_wad := 0, host_fee_percentage := 0 }

/-- All-zero reserve configuration, as Rust's derived `Default`. -/
def ReserveConfig.default : ReserveConfig :=
  { optimal_utilization_rate := 0, max_utilization_rate := 0,
    loan_to_value_ratio := 0, liquidation_bonus := 0,
    max_liquidation_bonus := 0, liquidation_threshold := 0,
    max_liquidation_threshold := 0, min_borrow_rate := 0,
    optimal_borrow_rate := 0, max_borrow_rate := 0,
    super_max_borrow_rate := 0, fees := ReserveFees.default,
    deposit_limit := 0, borrow_limit := 0, fee_receiver := 0,
    protocol_liquidation_fee := 0, protocol_take_rate := 0,
    added_borrow_weight_bps := 0, reserve_type := ReserveType.Regular }

/-- All-zero rate limiter, as Rust's derived `Default`. -/
def RateLimiter.default : RateLimiter :=
  { config := { window_duration := 0, max_outflow := 0 },
    prev_qty := Decimal.zero, window_start := 0, cur_qty := Decimal.zero }

/-- All-zero reserve, as Rust's derived `Default`. -/
def Reserve.default : Reserve :=
  { version := 0, last_update := { slot := 0, stale := false },
    lending_market := 0, liquidity := ReserveLiquidity.default,
    collateral := ReserveCollateral.default, config := ReserveConfig.default,
    rate_limiter := RateLimiter.default }

/-- All-zero obligation, as Rust's derived `Default`. -/
def Obligation.default : Obligation :=
  { version := 0, last_update := { slot := 0, stale := false },
    lending_market := 0, owner := 0, deposits := [], borrows := [],
    deposited_value := Decimal.zero, borrowed_value := Decimal.zero,
    borrowed_value_upper_bound := Decimal.zero,
    allowed_borrow_value := Decimal.zero,
    unhealthy_borrow_value := Decimal.zero,
    super_unhealthy_borrow_value := Decimal.zero,
    borrowing_isolated_asset := false, closeable := false }

/-- Length of a packed rate limiter record, 56 bytes. -/
def RATE_LIMITER_LEN : Nat := 56

/-- Length of a packed reserve record, 619 bytes
(`RESERVE_LEN` in reserve.rs). -/
def RESERVE_LEN : Nat := 619

/-- Little-endian encoding of a natural into `k` bytes (`to_le_bytes`). -/
def leBytes : Nat → Nat → List Nat
  | 0, _ => []
  | k + 1, n => n % 256 :: leBytes k (n / 256)

/-- Little-endian decoding of a byte list (`from_le_bytes`). -/
def leDecode : List Nat → Nat
  | [] => 0
  | b :: rest => b + 256 * leDecode rest

/-- The `len` bytes of `bs` starting at `off`; `array_refs!` slicing. -/
def chunk (bs : List Nat) (off len : Nat) : List Nat := (bs.drop off).take len

/-- Boolean encoding used by the account layout (`pack_bool`). -/
def pack_bool (b : Bool) : List Nat := [if b then 1 else 0]

/-- Boolean decoding; any byte other than 0 or 1 is malformed
(`unpack_bool`). -/
def unpack_bool (bs : List Nat) : Except ProgramError Bool :=
  match bs with
  | [0] => .ok false
  | [1] => .ok true
  | _ => .error .invalidAccountData

/-- Decimal encoding: the scaled value as 16 little-endian bytes
(`pack_decimal`; the source panics when the value exceeds 128 bits, the
model truncates, so well-formedness is assumed where it matters). -/
def pack_decimal (d : Decimal) : List Nat := leBytes 16 d.val

/-- Decimal decoding from 16 little-endian bytes (`unpack_decimal`). -/
def unpack_decimal (bs : List Nat) : Decimal := ⟨leDecode bs⟩

/-- Tag byte of a reserve type (`ReserveType as u8`). -/
def ReserveType.to_u8 : ReserveType → Nat
  | .Regular => 0
  | .Isolated => 1

/-- Reserve type from its tag byte; the source `unwrap`s and panics on any
other tag, the model fails with `invalidAccountData` instead
(`ReserveType::from_u8`). -/
def ReserveType.from_u8 (n : Nat) : Except ProgramError ReserveType :=
  if n = 0 then .ok .Regular
  else if n = 1 then .ok .Isolated
  else .error .invalidAccountData

/-- Modelled from the spec (§6): the packed rate limiter record —
config, previous quantity, window start and current quantity in 56
little-endian bytes (`RateLimiter::pack_into_slice`, declared outside the
extracted sources). -/
def RateLimiter.pack_into_slice (rl : RateLimiter) : List Nat :=
  leBytes 8 rl.config.max_outflow ++ leBytes 8 rl.config.window_duration ++
  leBytes 16 rl.prev_qty.val ++ leBytes 8 rl.window_start ++
  leBytes 16 rl.cur_qty.val

/-- Modelled from the spec (§6): rate limiter decoding, the inverse of its
packing (`RateLimiter::unpack_from_slice`, declared outside the extracted
sources). -/
def RateLimiter.unpack_from_slice (bs : List Nat) :
    Except ProgramError RateLimiter :=
  .ok { config := { max_outflow := leDecode (chunk bs 0 8),
                    window_duration := leDecode (chunk bs 8 8) },
        prev_qty := ⟨leDecode (chunk bs 16 16)⟩,
        window_start := leDecode (chunk bs 32 8),
        cur_qty := ⟨leDecode (chunk bs 40 16)⟩ }

/-- Serialize a reserve into its 619-byte account record, field encodings
in the order of the source's `mut_array_refs!` split; the reserved padding
region is zeroed (`Reserve::pack_into_slice`). -/
def Reserve.pack_into_slice (r : Reserve) : List Nat :=
  leBytes 1 r.version ++
  leBytes 8 r.last_update.slot ++
  pack_bool r.last_update.stale ++
  leBytes 32 r.lending_market ++
  leBytes 32 r.liquidity.mint_pubkey ++
  leBytes 1 r.liquidity.mint_decimals ++
  leBytes 32 r.liquidity.supply_pubkey ++
  leBytes 32 r.liquidity.pyth_oracle_pubkey ++
  leBytes 32 r.liquidity.switchboard_oracle_pubkey ++
  leBytes 8 r.liquidity.available_amount ++
  pack_decimal r.liquidity.borrowed_amount_wads ++
  pack_decimal r.liquidity.cumulative_borrow_rate_wads ++
  pack_decimal r.liquidity.market_price ++
  leBytes 32 r.collateral.mint_pubkey ++
  leBytes 8 r.collateral.mint_total_supply ++
  leBytes 32 r.collateral.supply_pubkey ++
  leBytes 1 r.config.optimal_utilization_rate ++
  leBytes 1 r.config.loan_to_value_ratio ++
  leBytes 1 r.config.liquidation_bonus ++
  leBytes 1 r.config.liquidation_threshold ++
  leBytes 1 r.config.min_borrow_rate ++
  leBytes 1 r.config.optimal_borrow_rate ++
  leBytes 1 r.config.max_borrow_rate ++
  leBytes 8 r.config.fees.borrow_fee_wad ++
  leBytes 8 r.config.fees.flash_loan_fee_wad ++
  leBytes 1 r.config.fees.host_fee_percentage ++
  leBytes 8 r.config.deposit_limit ++
  leBytes 8 r.config.borrow_limit ++
  leBytes 32 r.config.fee_receiver ++
  leBytes 1 r.config.protocol_liquidation_fee ++
  leBytes 1 r.config.protocol_take_rate ++
  pack_decimal r.liquidity.accumulated_protocol_fees_wads ++
  r.rate_limiter.pack_into_slice ++
  leBytes 8 r.config.added_borrow_weight_bps ++
  pack_decimal r.liquidity.smoothed_market_price ++
  leBytes 1 r.config.reserve_type.to_u8 ++
  leBytes 1 r.config.max_utilization_rate ++
  leBytes 8 r.config.super_max_borrow_rate ++
  leBytes 1 r.config.max_liquidation_bonus ++
  leBytes 1 r.config.max_liquidation_threshold ++
  List.replicate 138 0

/-- Deserialize a 619-byte account record into a reserve, backfilling the
`max_*` fields, capping the protocol liquidation fee and rejecting future
versions (`Reserve::unpack_from_slice`). -/
def Reserve.unpack_from_slice (input : List Nat) :
    Except ProgramError Reserve := do
  if input.length ≠ RESERVE_LEN then
    .error .invalidAccountData
  else
  let version := leDecode (chunk input 0 1)
  if PROGRAM_VERSION < version then
    .error .invalidAccountData
  else do
  let stale ← unpack_bool (chunk input 9 1)
  let reserve_type ← ReserveType.from_u8 (leDecode (chunk input 469 1))
  let rate_limiter ← RateLimiter.unpack_from_slice (chunk input 389 RATE_LIMITER_LEN)
  let optimal_utilization_rate := leDecode (chunk input 299 1)
  let max_borrow_rate := leDecode (chunk input 305 1)
  let liquidation_bonus := leDecode (chunk input 301 1)
  let max_liquidation_bonus :=
    Nat.max liquidation_bonus (leDecode (chunk input 479 1))
  let liquidation_threshold := leDecode (chunk input 302 1)
  let max_liquidation_threshold :=
    Nat.max liquidation_threshold (leDecode (chunk input 480 1))
  .ok { version := version,
        last_update := { slot := leDecode (chunk input 1 8), stale := stale },
        lending_market := leDecode (chunk input 10 32),
        liquidity := {
          mint_pubkey := leDecode (chunk input 42 32),
          mint_decimals := leDecode (chunk input 74 1),
          supply_pubkey := leDecode (chunk input 75 32),
          pyth_oracle_pubkey := leDecode (chunk input 107 32),
          switchboard_oracle_pubkey := leDecode (chunk input 139 32),
          available_amount := leDecode (chunk input 171 8),
          borrowed_amount_wads := unpack_decimal (chunk input 179 16),
          cumulative_borrow_rate_wads := unpack_decimal (chunk input 195 16),
          accumulated_protocol_fees_wads := unpack_decimal (chunk input 373 16),
          market_price := unpack_decimal (chunk input 211 16),
          smoothed_market_price := unpack_decimal (chunk input 453 16) },
        collateral := {
          mint_pubkey := leDecode (chunk input 227 32),
          mint_total_supply := leDecode (chunk input 259 8),
          supply_pubkey := leDecode (chunk input 267 32) },
        config := {
          optimal_utilization_rate := optimal_utilization_rate,
          max_utilization_rate :=
            Nat.max optimal_utilization_rate (leDecode (chunk input 470 1)),
          loan_to_value_ratio := leDecode (chunk input 300 1),
          liquidation_bonus := liquidation_bonus,
          max_liquidation_bonus := max_liquidation_bonus,
          liquidation_threshold := liquidation_threshold,
          max_liquidation_threshold := max_liquidation_threshold,
          min_borrow_rate := leDecode (chunk input 303 1),
          optimal_borrow_rate := leDecode (chunk input 304 1),
          max_borrow_rate := max_borrow_rate,
          super_max_borrow_rate :=
            Nat.max max_borrow_rate (leDecode (chunk input 471 8)),
          fees := {
            borrow_fee_wad := leDecode (chunk input 306 8),
            flash_loan_fee_wad := leDecode (chunk input 314 8),
            host_fee_percentage := leDecode (chunk input 322 1) },
          deposit_limit := leDecode (chunk input 323 8),
          borrow_limit := leDecode (chunk input 331 8),
          fee_receiver := leDecode (chunk input 339 32),
          protocol_liquidation_fee :=
            Nat.min (leDecode (chunk input 371 1))
              MAX_PROTOCOL_LIQUIDATION_FEE_DECA_BPS,
          protocol_take_rate := leDecode (chunk input 372 1),
          added_borrow_weight_bps := leDecode (chunk input 445 8),
          reserve_type := reserve_type },
        rate_limiter := rate_limiter }

/-- Utilization rate as the specification words it: borrowed divided by
(borrowed + available − protocol fees), zero when that denominator is
zero. -/
def utilization_rate_claimed (liq : ReserveLiquidity) : Except ProgramError Rate := do
  let s ← (Decimal.fromNat liq.available_amount).try_add liq.borrowed_amount_wads
  let denominator ← s.try_sub liq.accumulated_protocol_fees_wads
  if denominator = Decimal.zero then
    .ok Rate.zero
  else do
    let q ← liq.borrowed_amount_wads.try_div denominator
    Rate.try_from q

def c1_liq : ReserveLiquidity :=
  { ReserveLiquidity.default with
    available_amount := 1,
    borrowed_amount_wads := Decimal.one,
    accumulated_protocol_fees_wads := Decimal.one }

/-- The dust-regime liquidation as the claim words it: attempt a full
repayment of the borrow, compare `market_value * bonus_rate` with the
collateral value, settle proportionally / fully / fully with a floored
withdrawal of at least one unit, and fail `LiquidationTooSmall` when the
rounded repay amount is zero. -/
def calculate_liquidation_dust_claimed (r : Reserve) (obligation : Obligation)
    (liquidity : ObligationLiquidity) (collateral : ObligationCollateral) :
    Except ProgramError CalculateLiquidationResult := do
  let bonus ← r.calculate_bonus obligation
  let bonus_rate ← bonus.try_add Decimal.one
  let liquidation_value ← liquidity.market_value.try_mul bonus_rate
  if collateral.market_value.val < liquidation_value.val then do
    let repay_pct ← collateral.market_value.try_div liquidation_value
    let settle_amount ← liquidity.borrowed_amount_wads.try_mul repay_pct
    let repay_amount ← settle_amount.try_ceil_u64
    .ok { settle_amount := settle_amount, repay_amount := repay_amount,
          withdraw_amount := collateral.deposited_amount, bonus_rate := bonus_rate }
  else if liquidation_value.val = collateral.market_value.val then do
    let settle_amount := liquidity.borrowed_amount_wads
    let repay_amount ← settle_amount.try_ceil_u64
    .ok { settle_amount := settle_amount, repay_amount := repay_amount,
          withdraw_amount := collateral.deposited_amount, bonus_rate := bonus_rate }
  else do
    let withdraw_pct ← liquidation_value.try_div collateral.market_value
    let settle_amount := liquidity.borrowed_amount_wads
    let repay_amount ← settle_amount.try_ceil_u64
    if repay_amount = 0 then
      .error (.lendingErr .LiquidationTooSmall)
    else do
      let scaled ← (Decimal.fromNat collateral.deposited_amount).try_mul withdraw_pct
      let floored ← scaled.try_floor_u64
      .ok { settle_amount := settle_amount, repay_amount := repay_amount,
            withdraw_amount := Nat.max floored 1, bonus_rate := bonus_rate }

/-- Machine-integer ranges of the Rust `ReserveConfig` fields: every u8
field fits a byte and every u64 field fits eight bytes.  Any value of the
Rust struct satisfies this by typing. -/
def ReserveConfig.WF (c : ReserveConfig) : Prop :=
  c.optimal_utilization_rate < 2 ^ 8 ∧ c.max_utilization_rate < 2 ^ 8 ∧
  c.loan_to_value_ratio < 2 ^ 8 ∧ c.liquidation_bonus < 2 ^ 8 ∧
  c.max_liquidation_bonus < 2 ^ 8 ∧ c.liquidation_threshold < 2 ^ 8 ∧
  c.max_liquidation_threshold < 2 ^ 8 ∧ c.min_borrow_rate < 2 ^ 8 ∧
  c.optimal_borrow_rate < 2 ^ 8 ∧ c.max_borrow_rate < 2 ^ 8 ∧
  c.super_max_borrow_rate < 2 ^ 64 ∧ c.fees.borrow_fee_wad < 2 ^ 64 ∧
  c.fees.flash_loan_fee_wad < 2 ^ 64 ∧ c.fees.host_fee_percentage < 2 ^ 8 ∧
  c.deposit_limit < 2 ^ 64 ∧ c.borrow_limit < 2 ^ 64 ∧
  c.fee_receiver < 2 ^ 256 ∧ c.protocol_liquidation_fee < 2 ^ 8 ∧
  c.protocol_take_rate < 2 ^ 8 ∧ c.added_borrow_weight_bps < 2 ^ 64

instance (c : ReserveConfig) : Decidable c.WF := by
  unfold ReserveConfig.WF
  infer_instance

/-- Counterexample fixture for the knee claims of the rate curve: a
validate-accepted config whose optimal utilization is zero. -/
def c2Reserve : Reserve :=
  { Reserve.default with
    liquidity := { ReserveLiquidity.default with
      available_amount := 100 }
    config := { ReserveConfig.default with
      loan_to_value_ratio := 50
      liquidation_threshold := 55
      max_liquidation_threshold := 60
      liquidation_bonus := 2
      max_liquidation_bonus := 5
      min_borrow_rate := 1
      optimal_borrow_rate := 5
      max_borrow_rate := 10
      super_max_borrow_rate := 10 } }

/-- Witness fixture for the amended rate-curve theorem: utilization sits
exactly at the optimal knee of 80 percent. -/
def c2WitnessReserve : Reserve :=
  { Reserve.default with
    liquidity := { ReserveLiquidity.default with
      available_amount := 1
      borrowed_amount_wads := ⟨4 * WAD⟩ }
    config := { ReserveConfig.default with
      optimal_utilization_rate := 80
      max_utilization_rate := 90
      loan_to_value_ratio := 50
      liquidation_threshold := 55
      max_liquidation_threshold := 60
      liquidation_bonus := 2
      max_liquidation_bonus := 5
      min_borrow_rate := 1
      optimal_borrow_rate := 5
      max_borrow_rate := 10
      super_max_borrow_rate := 20 } }

/-- A configuration accepted by `validate_reserve_config`, used to
instantiate theorems about validated reserves. -/
def c3Reserve : Reserve :=
  { Reserve.default with
    config := { ReserveConfig.default with
      loan_to_value_ratio := 50
      liquidation_threshold := 55
      max_liquidation_threshold := 60
      liquidation_bonus := 2
      max_liquidation_bonus := 5
      min_borrow_rate := 1
      optimal_borrow_rate := 5
      max_borrow_rate := 10
      super_max_borrow_rate := 10
      protocol_liquidation_fee := 20 } }

/-- Reserve fixture for the borrow-max witness: unit prices, zero fees,
100 units of available liquidity. -/
def c4Reserve : Reserve :=
  { Reserve.default with
    liquidity := { ReserveLiquidity.default with
      available_amount := 100
      market_price := ⟨WAD⟩
      smoothed_market_price := ⟨WAD⟩ } }

/-- Borrow line item in the dust regime: market value exactly one. -/
def c6Liquidity : ObligationLiquidity :=
  { borrow_reserve := 0, cumulative_borrow_rate_wads := Decimal.one,
    borrowed_amount_wads := Decimal.fromNat 100, market_value := ⟨WAD⟩ }

/-- Collateral line item standing against the dust borrow. -/
def c6Collateral : ObligationCollateral :=
  { deposit_reserve := 0, deposited_amount := 10,
    market_value := Decimal.fromNat 2 }

/-- Round-trip fixture: one collateral token against three units of
liquidity, so the exchange rate floors hard. -/
def c7Reserve : Reserve :=
  { Reserve.default with
    liquidity := { ReserveLiquidity.default with available_amount := 3 }
    collateral := { ReserveCollateral.default with mint_total_supply := 1 } }

/-- The same reserve after depositing two units for zero collateral. -/
def c7Mid : Reserve :=
  { c7Reserve with
    liquidity := { c7Reserve.liquidity with available_amount := 5 } }

/-- The claimed backfill rule, following the claim's words: a stored
`max_*` byte is kept as-is unless it is zero, in which case the
corresponding non-max field replaces it. -/
def unpack_max_fields_claimed (input : List Nat) (cfg : ReserveConfig) : Prop :=
  cfg.max_liquidation_bonus =
    (if leDecode (chunk input 479 1) = 0 then leDecode (chunk input 301 1)
     else leDecode (chunk input 479 1)) ∧
  cfg.max_liquidation_threshold =
    (if leDecode (chunk input 480 1) = 0 then leDecode (chunk input 302 1)
     else leDecode (chunk input 480 1)) ∧
  cfg.max_utilization_rate =
    (if leDecode (chunk input 470 1) = 0 then leDecode (chunk input 299 1)
     else leDecode (chunk input 470 1)) ∧
  cfg.protocol_liquidation_fee =
    Nat.min (leDecode (chunk input 371 1)) MAX_PROTOCOL_LIQUIDATION_FEE_DECA_BPS ∧
  cfg.max_borrow_rate ≤ cfg.super_max_borrow_rate

instance (input : List Nat) (cfg : ReserveConfig) :
    Decidable (unpack_max_fields_claimed input cfg) := by
  unfold unpack_max_fields_claimed
  infer_instance

/-- Packed record whose stored max-liquidation-bonus byte is a nonzero 3
while the liquidation-bonus byte is a larger 10. -/
def c9Reserve : Reserve :=
  { Reserve.default with
    version := 1
    config := { ReserveConfig.default with
      liquidation_bonus := 10
      max_liquidation_bonus := 3 } }

/-- What decoding the record above actually produces: the larger of the
two bonus bytes. -/
def c9Unpacked : Reserve :=
  { c9Reserve with
    config := { c9Reserve.config with max_liquidation_bonus := 10 } }

/-- Machine-integer ranges of every packed field of the Rust `Reserve`:
u8, u64 and 128-bit `Decimal` fields fit their byte widths and pubkeys fit
32 bytes.  Any value of the Rust struct satisfies this by typing. -/
def Reserve.WF (r : Reserve) : Prop :=
  r.version < 2 ^ 8 ∧
  r.last_update.slot < 2 ^ 64 ∧
  r.lending_market < 2 ^ 256 ∧
  r.liquidity.mint_pubkey < 2 ^ 256 ∧
  r.liquidity.mint_decimals < 2 ^ 8 ∧
  r.liquidity.supply_pubkey < 2 ^ 256 ∧
  r.liquidity.pyth_oracle_pubkey < 2 ^ 256 ∧
  r.liquidity.switchboard_oracle_pubkey < 2 ^ 256 ∧
  r.liquidity.available_amount < 2 ^ 64 ∧
  r.liquidity.borrowed_amount_wads.val < 2 ^ 128 ∧
  r.liquidity.cumulative_borrow_rate_wads.val < 2 ^ 128 ∧
  r.liquidity.accumulated_protocol_fees_wads.val < 2 ^ 128 ∧
  r.liquidity.market_price.val < 2 ^ 128 ∧
  r.liquidity.smoothed_market_price.val < 2 ^ 128 ∧
  r.collateral.mint_pubkey < 2 ^ 256 ∧
  r.collateral.mint_total_supply < 2 ^ 64 ∧
  r.collateral.supply_pubkey < 2 ^ 256 ∧
  r.config.WF ∧
  r.rate_limiter.config.max_outflow < 2 ^ 64 ∧
  r.rate_limiter.config.window_duration < 2 ^ 64 ∧
  r.rate_limiter.prev_qty.val < 2 ^ 128 ∧
  r.rate_limiter.window_start < 2 ^ 64 ∧
  r.rate_limiter.cur_qty.val < 2 ^ 128

instance (r : Reserve) : Decidable r.WF := by
  unfold Reserve.WF
  infer_instance

/-- Liquidity of the round-trip witness fixture. -/
def c10Liquidity : ReserveLiquidity :=
  { mint_pubkey := 11, mint_decimals := 6, supply_pubkey := 22,
    pyth_oracle_pubkey := 33, switchboard_oracle_pubkey := 44,
    available_amount := 1000000, borrowed_amount_wads := ⟨123 * 10 ^ 18⟩,
    cumulative_borrow_rate_wads := ⟨2 * 10 ^ 18⟩,
    accumulated_protocol_fees_wads := ⟨10 ^ 17⟩,
    market_price := ⟨5 * 10 ^ 18⟩, smoothed_market_price := ⟨4 * 10 ^ 18⟩ }

/-- Configuration of the round-trip witness fixture. -/
def c10Config : ReserveConfig :=
  { optimal_utilization_rate := 80, max_utilization_rate := 90,
    loan_to_value_ratio := 50, liquidation_bonus := 2,
    max_liquidation_bonus := 5, liquidation_threshold := 55,
    max_liquidation_threshold := 60, min_borrow_rate := 1,
    optimal_borrow_rate := 5, max_borrow_rate := 10,
    super_max_borrow_rate := 20,
    fees := { borrow_fee_wad := 10000000000000000,
              flash_loan_fee_wad := 3000000000000000,
              host_fee_percentage := 20 },
    deposit_limit := 500000, borrow_limit := 400000, fee_receiver := 88,
    protocol_liquidation_fee := 30, protocol_take_rate := 10,
    added_borrow_weight_bps := 10000, reserve_type := ReserveType.Isolated }

/-- Round-trip witness fixture: a version-1 reserve with nontrivial values
in every packed field, satisfying the load-time orderings. -/
def c10Reserve : Reserve :=
  { version := 1, last_update := { slot := 123456, stale := true },
    lending_market := 77, liquidity := c10Liquidity,
    collateral := { mint_pubkey := 55, mint_total_supply := 999,
                    supply_pubkey := 66 },
    config := c10Config,
    rate_limiter := { config := { window_duration := 100, max_outflow := 200 },
                      prev_qty := ⟨7⟩, window_start := 9, cur_qty := ⟨8⟩ } }

/-- Sanity check against a unit-test vector of reserve.rs. -/
theorem rust_test_vector_1 : Decimal.try_mul (Decimal.fromNat 1000) (Decimal.from_percent 1) =
    .ok (Decimal.fromNat 10) := by decide

/-- Sanity check against a unit-test vector of reserve.rs. -/
theorem rust_test_vector_2 : Rate.try_pow (Rate.from_percent 100) 5 = .ok Rate.one := by decide

/-- Sanity check against a unit-test vector of reserve.rs. -/
theorem rust_test_vector_3 : ReserveFees.calculate_borrow_fees
    { borrow_fee_wad := 10000000000000000, flash_loan_fee_wad := 0,
      host_fee_percentage := 20 }
    (Decimal.fromNat 1000) .Exclusive = .ok (10, 2) := by decide

/-- Sanity check against a unit-test vector of reserve.rs. -/
theorem rust_test_vector_4 : ReserveFees.calculate_borrow_fees
    { borrow_fee_wad := 10000000000000000, flash_loan_fee_wad := 0,
      host_fee_percentage := 0 }
    (Decimal.fromNat 2) .Exclusive = .ok (1, 0) := by decide

/-- Sanity check against a unit-test vector of reserve.rs. -/
theorem rust_test_vector_5 : ReserveFees.calculate_borrow_fees
    { borrow_fee_wad := 10000000000000000, flash_loan_fee_wad := 0,
      host_fee_percentage := 0 }
    Decimal.one .Exclusive = .error (.lendingErr .BorrowTooSmall) := by decide

/-- Sanity check against a unit-test vector of reserve.rs. -/
theorem rust_test_vector_6 : Reserve.market_value
    { Reserve.default with
      liquidity := { ReserveLiquidity.default with
        mint_decimals := 9,
        market_price := Decimal.fromNat 25,
        smoothed_market_price := Decimal.fromNat 50 } }
    (Decimal.fromNat 10000000000) = .ok (Decimal.fromNat 250) := by decide

/-- Sanity check against a unit-test vector of reserve.rs. -/
theorem rust_test_vector_7 : Reserve.market_value_upper_bound
    { Reserve.default with
      liquidity := { ReserveLiquidity.default with
        mint_decimals := 9,
        market_price := Decimal.fromNat 25,
        smoothed_market_price := Decimal.fromNat 50 } }
    (Decimal.fromNat 10000000000) = .ok (Decimal.fromNat 500) := by decide

/-- Sanity check against a unit-test vector of reserve.rs. -/
theorem rust_test_vector_8 : Reserve.calculate_bonus
    { Reserve.default with
      config := { ReserveConfig.default with
        liquidation_bonus := 10,
        max_liquidation_bonus := 20,
        protocol_liquidation_fee := 10 } }
    { Obligation.default with
      borrowed_value := Decimal.fromNat 100,
      unhealthy_borrow_value := Decimal.fromNat 50,
      super_unhealthy_borrow_value := Decimal.fromNat 150 } =
    .ok (Decimal.from_percent 16) := by decide

/-- Sanity check against a unit-test vector of reserve.rs. -/
theorem rust_test_vector_9 : Reserve.calculate_bonus
    { Reserve.default with
      config := { ReserveConfig.default with
        liquidation_bonus := 30,
        max_liquidation_bonus := 30,
        protocol_liquidation_fee := 30 } }
    { Obligation.default with
      borrowed_value := Decimal.fromNat 60,
      unhealthy_borrow_value := Decimal.fromNat 40,
      super_unhealthy_borrow_value := Decimal.fromNat 60 } =
    .ok (Decimal.from_percent 25) := by decide

/-- Sanity check against a unit-test vector of reserve.rs. -/
theorem rust_test_vector_10 : Reserve.calculate_bonus
    { Reserve.default with
      config := { ReserveConfig.default with
        liquidation_bonus := 10,
        max_liquidation_bonus := 20,
        protocol_liquidation_fee := 10 } }
    { Obligation.default with
      borrowed_value := Decimal.fromNat 100,
      unhealthy_borrow_value := Decimal.fromNat 101,
      super_unhealthy_borrow_value := Decimal.fromNat 150 } =
    .error (.lendingErr .ObligationHealthy) := by decide

/-- Sanity check against a unit-test vector of reserve.rs. -/
theorem rust_test_vector_11 : Reserve.calculate_liquidation
    { Reserve.default with
      config := { ReserveConfig.default with
        liquidation_bonus := 5,
        max_liquidation_bonus := 5 } }
    U64_MAX
    { Obligation.default with
      borrowed_value := Decimal.one,
      unhealthy_borrow_value := Decimal.one,
      super_unhealthy_borrow_value := Decimal.one }
    { borrow_reserve := 0, cumulative_borrow_rate_wads := Decimal.one,
      borrowed_amount_wads := Decimal.fromNat 10, market_value := Decimal.one }
    { deposit_reserve := 0, deposited_amount := 10,
      market_value := Decimal.from_bps 5250 } =
    .ok { settle_amount := Decimal.fromNat 5, repay_amount := 5,
          withdraw_amount := 10, bonus_rate := Decimal.from_percent 105 } := by
  decide

/-- Sanity check against a unit-test vector of reserve.rs. -/
theorem rust_test_vector_12 : Reserve.calculate_liquidation
    { Reserve.default with
      config := { ReserveConfig.default with
        liquidation_bonus := 5,
        max_liquidation_bonus := 5 } }
    U64_MAX
    { Obligation.default with
      borrowed_value := Decimal.fromNat 8000,
      unhealthy_borrow_value := Decimal.fromNat 8000,
      super_unhealthy_borrow_value := Decimal.fromNat 8000 }
    { borrow_reserve := 0, cumulative_borrow_rate_wads := Decimal.one,
      borrowed_amount_wads := Decimal.fromNat 8000,
      market_value := Decimal.fromNat 8000 }
    { deposit_reserve := 0, deposited_amount := 1680,
      market_value := Decimal.fromNat 1680 } =
    .ok { settle_amount := Decimal.fromNat 1600, repay_amount := 1600,
          withdraw_amount := 1680, bonus_rate := Decimal.from_percent 105 } := by
  decide

theorem Decimal.try_add_ok {a b c : Decimal} :
    Decimal.try_add a b = .ok c ↔
      a.val + b.val < U192_MOD ∧ c.val = a.val + b.val := by
  obtain ⟨cv⟩ := c
  unfold Decimal.try_add mathOverflow
  split <;> simp_all [eq_comm]

theorem Decimal.try_sub_ok {a b c : Decimal} :
    Decimal.try_sub a b = .ok c ↔ b.val ≤ a.val ∧ c.val = a.val - b.val := by
  obtain ⟨cv⟩ := c
  unfold Decimal.try_sub mathOverflow
  split <;> simp_all [eq_comm]

theorem Decimal.try_mul_ok {a b c : Decimal} :
    Decimal.try_mul a b = .ok c ↔
      a.val * b.val < U192_MOD ∧ c.val = a.val * b.val / WAD := by
  obtain ⟨cv⟩ := c
  unfold Decimal.try_mul mathOverflow
  split <;> simp_all [eq_comm]

theorem Decimal.try_mul_nat_ok {a : Decimal} {n : Nat} {c : Decimal} :
    Decimal.try_mul_nat a n = .ok c ↔
      a.val * n < U192_MOD ∧ c.val = a.val * n := by
  obtain ⟨cv⟩ := c
  unfold Decimal.try_mul_nat mathOverflow
  split <;> simp_all [eq_comm]

theorem Decimal.try_div_ok {a b c : Decimal} :
    Decimal.try_div a b = .ok c ↔
      a.val * WAD < U192_MOD ∧ b.val ≠ 0 ∧ c.val = a.val * WAD / b.val := by
  obtain ⟨cv⟩ := c
  unfold Decimal.try_div mathOverflow
  split <;> [skip; simp_all] <;> split <;> simp_all [eq_comm]

theorem Decimal.try_floor_u64_ok {a : Decimal} {n : Nat} :
    Decimal.try_floor_u64 a = .ok n ↔ a.val / WAD < U64_MOD ∧ n = a.val / WAD := by
  unfold Decimal.try_floor_u64 mathOverflow
  split <;> simp_all [eq_comm]

theorem Decimal.try_ceil_u64_ok {a : Decimal} {n : Nat} :
    Decimal.try_ceil_u64 a = .ok n ↔
      a.val + (WAD - 1) < U192_MOD ∧ (a.val + (WAD - 1)) / WAD < U64_MOD ∧
        n = (a.val + (WAD - 1)) / WAD := by
  unfold Decimal.try_ceil_u64 mathOverflow
  split <;> [skip; simp_all] <;> split <;> simp_all [eq_comm]

theorem Decimal.try_round_u64_ok {a : Decimal} {n : Nat} :
    Decimal.try_round_u64 a = .ok n ↔
      a.val + WAD / 2 < U192_MOD ∧ (a.val + WAD / 2) / WAD < U64_MOD ∧
        n = (a.val + WAD / 2) / WAD := by
  unfold Decimal.try_round_u64 mathOverflow
  split <;> [skip; simp_all] <;> split <;> simp_all [eq_comm]

theorem Rate.try_add_ok_rate {a b c : Rate} :
    Rate.try_add a b = .ok c ↔ a.val + b.val < U128_MOD ∧ c.val = a.val + b.val := by
  obtain ⟨cv⟩ := c
  unfold Rate.try_add mathOverflow
  split <;> simp_all [eq_comm]

theorem Rate.try_sub_ok_rate {a b c : Rate} :
    Rate.try_sub a b = .ok c ↔ b.val ≤ a.val ∧ c.val = a.val - b.val := by
  obtain ⟨cv⟩ := c
  unfold Rate.try_sub mathOverflow
  split <;> simp_all [eq_comm]

theorem Rate.try_mul_ok_rate {a b c : Rate} :
    Rate.try_mul a b = .ok c ↔
      a.val * b.val < U128_MOD ∧ c.val = a.val * b.val / WAD := by
  obtain ⟨cv⟩ := c
  unfold Rate.try_mul mathOverflow
  split <;> simp_all [eq_comm]

theorem Rate.try_div_ok_rate {a b c : Rate} :
    Rate.try_div a b = .ok c ↔
      a.val * WAD < U128_MOD ∧ b.val ≠ 0 ∧ c.val = a.val * WAD / b.val := by
  obtain ⟨cv⟩ := c
  unfold Rate.try_div mathOverflow
  split <;> [skip; simp_all] <;> split <;> simp_all [eq_comm]

theorem Rate.try_div_nat_ok {a : Rate} {n : Nat} {c : Rate} :
    Rate.try_div_nat a n = .ok c ↔ n ≠ 0 ∧ c.val = a.val / n := by
  obtain ⟨cv⟩ := c
  unfold Rate.try_div_nat mathOverflow
  split <;> simp_all [eq_comm]

theorem Rate.try_from_ok {d : Decimal} {c : Rate} :
    Rate.try_from d = .ok c ↔ d.val < U128_MOD ∧ c.val = d.val := by
  obtain ⟨cv⟩ := c
  unfold Rate.try_from mathOverflow
  split <;> simp_all [eq_comm]

theorem checked_sub_nat_ok {a b n : Nat} :
    checked_sub_nat a b = .ok n ↔ b ≤ a ∧ n = a - b := by
  unfold checked_sub_nat mathOverflow
  split <;> simp_all [eq_comm]

theorem WAD_eq : WAD = 1000000000000000000 := by norm_num [WAD]

theorem PERCENT_SCALER_eq : PERCENT_SCALER = 10000000000000000 := by
  norm_num [PERCENT_SCALER]

theorem BPS_SCALER_eq : BPS_SCALER = 100000000000000 := by norm_num [BPS_SCALER]

theorem U64_MOD_eq : U64_MOD = 18446744073709551616 := by norm_num [U64_MOD]

theorem U128_MOD_eq : U128_MOD = 340282366920938463463374607431768211456 := by
  norm_num [U128_MOD]

theorem U192_MOD_eq :
    U192_MOD = 6277101735386680763835789423207666416102355444464034512896 := by
  norm_num [U192_MOD]

theorem except_bind_ok {ε α β : Type} {x : Except ε α} {f : α → Except ε β} {b : β} :
    (x >>= f) = .ok b ↔ ∃ a, x = .ok a ∧ f a = .ok b := by
  cases x <;> simp [Bind.bind, Except.bind]

/-- Claim C1, counterexample: with fees equal to the available liquidity the claimed fee-reduced quotient is 1 while the code returns 1/2. -/
theorem C1_utilization_rate_counterexample :
    ReserveLiquidity.utilization_rate c1_liq = .ok ⟨5 * 10 ^ 17⟩ ∧
    utilization_rate_claimed c1_liq = .ok ⟨WAD⟩ := by decide

/-- Claim C1 (corrected): `utilization_rate` divides the borrowed amount by borrowed + available, not by the fee-reduced total supply; the total supply (with fees subtracted) only gates the zero case. -/
theorem C1_utilization_rate_amended (liq : ReserveLiquidity) (u : Rate)
    (h : liq.utilization_rate = .ok u) :
    u.val =
      if liq.available_amount * WAD + liq.borrowed_amount_wads.val -
          liq.accumulated_protocol_fees_wads.val = 0 ∨
          liq.borrowed_amount_wads.val = 0 then 0
      else liq.borrowed_amount_wads.val * WAD /
        (liq.borrowed_amount_wads.val + liq.available_amount * WAD) := by
  obtain ⟨mp, md, sp, po, so, av, ⟨bor⟩, ⟨cum⟩, ⟨fees⟩, ⟨mpx⟩, ⟨smp⟩⟩ := liq
  simp only [ReserveLiquidity.utilization_rate] at h
  rw [except_bind_ok] at h
  obtain ⟨⟨tsv⟩, hts, h⟩ := h
  simp only [ReserveLiquidity.total_supply] at hts
  rw [except_bind_ok] at hts
  obtain ⟨⟨sv⟩, hs, hsub⟩ := hts
  rw [Decimal.try_add_ok] at hs
  rw [Decimal.try_sub_ok] at hsub
  simp only [Decimal.fromNat] at hs hsub
  obtain ⟨hs1, hs2⟩ := hs
  obtain ⟨hsub1, hsub2⟩ := hsub
  simp only at hs1 hs2 hsub1 hsub2 h ⊢
  split at h
  next hz =>
    injection h with h
    subst h
    simp only [Decimal.zero, Decimal.mk.injEq] at hz
    rw [if_pos]
    · rfl
    · rcases hz with hz | hz
      · left; omega
      · right; exact hz
  next hz =>
    simp only [Decimal.zero, Decimal.mk.injEq, not_or] at hz
    obtain ⟨hz1, hz2⟩ := hz
    rw [except_bind_ok] at h
    obtain ⟨⟨dv⟩, hd, h⟩ := h
    rw [except_bind_ok] at h
    obtain ⟨⟨qv⟩, hq, h⟩ := h
    rw [Decimal.try_add_ok] at hd
    rw [Decimal.try_div_ok] at hq
    rw [Rate.try_from_ok] at h
    simp only [Decimal.fromNat] at hd hq h
    rw [if_neg]
    · rw [h.2, hq.2.2, hd.2]
    · push_neg
      exact ⟨by omega, hz2⟩

theorem Decimal.minD_val (a b : Decimal) :
    (Decimal.minD a b).val = min a.val b.val := by
  unfold Decimal.minD
  split
  next h => exact (Nat.min_eq_left h).symm
  next h => exact (Nat.min_eq_right (by omega)).symm

theorem Decimal.maxD_val (a b : Decimal) :
    (Decimal.maxD a b).val = max a.val b.val := by
  unfold Decimal.maxD
  split
  next h => exact (Nat.max_eq_right h).symm
  next h => exact (Nat.max_eq_left (by omega)).symm

theorem Rate.try_mul_ge_left_rate {a b c : Rate} (hb : WAD ≤ b.val)
    (h : a.try_mul b = .ok c) : a.val ≤ c.val := by
  rw [Rate.try_mul_ok_rate] at h
  obtain ⟨_, hc⟩ := h
  rw [hc]
  calc a.val = a.val * WAD / WAD := by
        rw [Nat.mul_div_cancel _ (by decide : 0 < WAD)]
    _ ≤ a.val * b.val / WAD :=
        Nat.div_le_div_right (Nat.mul_le_mul_left _ hb)

theorem Decimal.try_mul_ge_left {a b c : Decimal} (hb : WAD ≤ b.val)
    (h : a.try_mul b = .ok c) : a.val ≤ c.val := by
  rw [Decimal.try_mul_ok] at h
  obtain ⟨_, hc⟩ := h
  rw [hc]
  calc a.val = a.val * WAD / WAD := by
        rw [Nat.mul_div_cancel _ (by decide : 0 < WAD)]
    _ ≤ a.val * b.val / WAD :=
        Nat.div_le_div_right (Nat.mul_le_mul_left _ hb)

theorem Rate.try_pow_fuel_ge_one : ∀ (fuel : Nat) (b : Rate) (n : Nat) (p : Rate),
    WAD ≤ b.val → Rate.try_pow_fuel fuel b n = .ok p → WAD ≤ p.val := by
  intro fuel
  induction fuel with
  | zero =>
    intro b n p _ h
    injection h with h
    subst h
    exact Nat.le_refl _
  | succ fuel ih =>
    intro b n p hb h
    simp only [Rate.try_pow_fuel] at h
    split at h
    next =>
      injection h with h
      subst h
      exact Nat.le_refl _
    next =>
      rw [except_bind_ok] at h
      obtain ⟨half, hhalf, h⟩ := h
      rw [except_bind_ok] at h
      obtain ⟨sq, hsq, h⟩ := h
      have h1 : WAD ≤ half.val := ih b (n / 2) half hb hhalf
      have h2 : WAD ≤ sq.val := Nat.le_trans h1 (Rate.try_mul_ge_left_rate h1 hsq)
      split at h
      next => exact Nat.le_trans h2 (Rate.try_mul_ge_left_rate hb h)
      next =>
        injection h with h
        subst h
        exact h2

theorem Rate.try_pow_ge_one {b : Rate} {n : Nat} {p : Rate} (hb : WAD ≤ b.val)
    (h : Rate.try_pow b n = .ok p) : WAD ≤ p.val :=
  Rate.try_pow_fuel_ge_one n b n p hb h

/-- Claim C8 (confirmed): a successful `accrue_interest` never decreases `cumulative_borrow_rate_wads`. -/
theorem C8_cumulative_rate_monotone (r : Reserve) (current_slot : Nat) (r' : Reserve)
    (h : r.accrue_interest current_slot = .ok r') :
    r.liquidity.cumulative_borrow_rate_wads.val ≤
      r'.liquidity.cumulative_borrow_rate_wads.val := by
  simp only [Reserve.accrue_interest] at h
  rw [except_bind_ok] at h
  obtain ⟨elapsed, _, h⟩ := h
  split at h
  next =>
    rw [except_bind_ok] at h
    obtain ⟨rate, _, h⟩ := h
    rw [except_bind_ok] at h
    obtain ⟨liq, hliq, h⟩ := h
    injection h with h
    subst h
    simp only [ReserveLiquidity.compound_interest] at hliq
    rw [except_bind_ok] at hliq
    obtain ⟨slot_rate, _, hliq⟩ := hliq
    rw [except_bind_ok] at hliq
    obtain ⟨base, hbase, hliq⟩ := hliq
    rw [except_bind_ok] at hliq
    obtain ⟨cir, hcir, hliq⟩ := hliq
    rw [except_bind_ok] at hliq
    obtain ⟨new_cum, hcum, hliq⟩ := hliq
    rw [except_bind_ok] at hliq
    obtain ⟨grown, _, hliq⟩ := hliq
    rw [except_bind_ok] at hliq
    obtain ⟨net, _, hliq⟩ := hliq
    rw [except_bind_ok] at hliq
    obtain ⟨feep, _, hliq⟩ := hliq
    rw [except_bind_ok] at hliq
    obtain ⟨nf, _, hliq⟩ := hliq
    rw [except_bind_ok] at hliq
    obtain ⟨nb, _, hliq⟩ := hliq
    injection hliq with hliq
    subst hliq
    rw [Rate.try_add_ok_rate] at hbase
    have hbse : WAD ≤ base.val := by
      have : Rate.one.val = WAD := rfl
      omega
    have hcir1 : WAD ≤ cir.val := Rate.try_pow_ge_one hbse hcir
    exact Decimal.try_mul_ge_left hcir1 hcum
  next =>
    injection h with h
    subst h
    exact Nat.le_refl _

theorem validate_reserve_config_ok {config : ReserveConfig}
    (h : validate_reserve_config config = .ok ()) :
    config.optimal_utilization_rate ≤ 100 ∧
    config.optimal_utilization_rate ≤ config.max_utilization_rate ∧
    config.max_utilization_rate ≤ 100 ∧
    config.loan_to_value_ratio < 100 ∧
    config.liquidation_bonus ≤ config.max_liquidation_bonus ∧
    config.max_liquidation_bonus ≤ 100 ∧
    config.loan_to_value_ratio ≤ config.liquidation_threshold ∧
    config.liquidation_threshold ≤ config.max_liquidation_threshold ∧
    config.max_liquidation_threshold ≤ 100 ∧
    config.min_borrow_rate ≤ config.optimal_borrow_rate ∧
    config.optimal_borrow_rate ≤ config.max_borrow_rate ∧
    config.max_borrow_rate ≤ config.super_max_borrow_rate ∧
    config.fees.borrow_fee_wad < WAD ∧
    config.fees.host_fee_percentage ≤ 100 ∧
    config.protocol_liquidation_fee ≤ MAX_PROTOCOL_LIQUIDATION_FEE_DECA_BPS ∧
    config.max_liquidation_bonus * 100 + config.protocol_liquidation_fee * 10 ≤
      MAX_BONUS_PCT * 100 ∧
    config.protocol_take_rate ≤ 100 := by
  unfold validate_reserve_config at h
  have h1 : ¬(100 < config.optimal_utilization_rate) := by
    intro hc
    rw [if_pos hc] at h
    exact Except.noConfusion h
  rw [if_neg h1] at h
  have h2 : ¬(config.max_utilization_rate < config.optimal_utilization_rate ∨ 100 < config.max_utilization_rate) := by
    intro hc
    rw [if_pos hc] at h
    exact Except.noConfusion h
  rw [if_neg h2] at h
  have h3 : ¬(100 ≤ config.loan_to_value_ratio) := by
    intro hc
    rw [if_pos hc] at h
    exact Except.noConfusion h
  rw [if_neg h3] at h
  have h4 : ¬(100 < config.liquidation_bonus) := by
    intro hc
    rw [if_pos hc] at h
    exact Except.noConfusion h
  rw [if_neg h4] at h
  have h5 : ¬(config.max_liquidation_bonus < config.liquidation_bonus ∨ 100 < config.max_liquidation_bonus) := by
    intro hc
    rw [if_pos hc] at h
    exact Except.noConfusion h
  rw [if_neg h5] at h
  have h6 : ¬(config.liquidation_threshold < config.loan_to_value_ratio ∨ 100 < config.liquidation_threshold) := by
    intro hc
    rw [if_pos hc] at h
    exact Except.noConfusion h
  rw [if_neg h6] at h
  have h7 : ¬(config.max_liquidation_threshold < config.liquidation_threshold ∨ 100 < config.max_liquidation_threshold) := by
    intro hc
    rw [if_pos hc] at h
    exact Except.noConfusion h
  rw [if_neg h7] at h
  have h8 : ¬(config.optimal_borrow_rate < config.min_borrow_rate) := by
    intro hc
    rw [if_pos hc] at h
    exact Except.noConfusion h
  rw [if_neg h8] at h
  have h9 : ¬(config.max_borrow_rate < config.optimal_borrow_rate) := by
    intro hc
    rw [if_pos hc] at h
    exact Except.noConfusion h
  rw [if_neg h9] at h
  have h10 : ¬(config.super_max_borrow_rate < config.max_borrow_rate) := by
    intro hc
    rw [if_pos hc] at h
    exact Except.noConfusion h
  rw [if_neg h10] at h
  have h11 : ¬(WAD ≤ config.fees.borrow_fee_wad) := by
    intro hc
    rw [if_pos hc] at h
    exact Except.noConfusion h
  rw [if_neg h11] at h
  have h12 : ¬(100 < config.fees.host_fee_percentage) := by
    intro hc
    rw [if_pos hc] at h
    exact Except.noConfusion h
  rw [if_neg h12] at h
  have h13 : ¬(MAX_PROTOCOL_LIQUIDATION_FEE_DECA_BPS < config.protocol_liquidation_fee) := by
    intro hc
    rw [if_pos hc] at h
    exact Except.noConfusion h
  rw [if_neg h13] at h
  have h14 : ¬(MAX_BONUS_PCT * 100 < config.max_liquidation_bonus * 100 + config.protocol_liquidation_fee * 10) := by
    intro hc
    rw [if_pos hc] at h
    exact Except.noConfusion h
  rw [if_neg h14] at h
  have h15 : ¬(100 < config.protocol_take_rate) := by
    intro hc
    rw [if_pos hc] at h
    exact Except.noConfusion h
  rw [if_neg h15] at h
  refine ⟨?_, ?_, ?_, ?_, ?_, ?_, ?_, ?_, ?_, ?_, ?_, ?_, ?_, ?_, ?_, ?_, ?_⟩ <;>
    omega

theorem except_bind_error {ε α β : Type} {x : Except ε α} {f : α → Except ε β}
    {e : ε} :
    (x >>= f) = .error e ↔ x = .error e ∨ ∃ a, x = .ok a ∧ f a = .error e := by
  cases x <;> simp [Bind.bind, Except.bind]

theorem Decimal.try_add_error {a b : Decimal} {e : ProgramError}
    (h : Decimal.try_add a b = .error e) : e = .lendingErr .MathOverflow := by
  unfold Decimal.try_add mathOverflow at h
  split at h
  · exact Except.noConfusion h
  · injection h with h
    exact h.symm

theorem Decimal.try_sub_error {a b : Decimal} {e : ProgramError}
    (h : Decimal.try_sub a b = .error e) : e = .lendingErr .MathOverflow := by
  unfold Decimal.try_sub mathOverflow at h
  split at h
  · exact Except.noConfusion h
  · injection h with h
    exact h.symm

theorem Decimal.try_mul_error {a b : Decimal} {e : ProgramError}
    (h : Decimal.try_mul a b = .error e) : e = .lendingErr .MathOverflow := by
  unfold Decimal.try_mul mathOverflow at h
  split at h
  · exact Except.noConfusion h
  · injection h with h
    exact h.symm

/-- Claim C3 (confirmed): `calculate_bonus` fails with `ObligationHealthy` exactly when the borrowed value is below the unhealthy threshold, and any returned bonus lies between `liquidation_bonus + protocol_liquidation_fee` and 25 percent. -/
theorem C3_calculate_bonus (r : Reserve) (ob : Obligation)
    (hcfg : validate_reserve_config r.config = .ok ()) :
    (r.calculate_bonus ob = .error (.lendingErr .ObligationHealthy) ↔
      ob.borrowed_value.val < ob.unhealthy_borrow_value.val) ∧
    ∀ b : Decimal, r.calculate_bonus ob = .ok b →
      b.val ≤ (Decimal.from_percent MAX_BONUS_PCT).val ∧
      (Decimal.from_percent r.config.liquidation_bonus).val +
        (Decimal.from_deca_bps r.config.protocol_liquidation_fee).val ≤ b.val := by
  obtain ⟨-, -, -, -, h5, h6, -, -, -, -, -, -, -, -, h15, h16, -⟩ :=
    validate_reserve_config_ok hcfg
  refine ⟨⟨fun hOH => ?_, fun hlt => ?_⟩, fun b hb => ?_⟩
  · by_contra hnlt
    unfold Reserve.calculate_bonus at hOH
    rw [if_neg hnlt] at hOH
    split at hOH
    next =>
      rw [except_bind_error] at hOH
      rcases hOH with hOH | ⟨a, -, hOH⟩
      · exact absurd (Decimal.try_add_error hOH) (by decide)
      · exact Except.noConfusion hOH
    next =>
      rw [except_bind_error] at hOH
      rcases hOH with hOH | ⟨num, -, hOH⟩
      · exact absurd (Decimal.try_sub_error hOH) (by decide)
      rw [except_bind_error] at hOH
      rcases hOH with hOH | ⟨den, -, hOH⟩
      · exact absurd (Decimal.try_sub_error hOH) (by decide)
      rw [except_bind_error] at hOH
      rcases hOH with hOH | ⟨spread, -, hOH⟩
      · exact absurd (Decimal.try_sub_error hOH) (by decide)
      rw [except_bind_error] at hOH
      rcases hOH with hOH | ⟨scaled, -, hOH⟩
      · exact absurd (Decimal.try_mul_error hOH) (by decide)
      rw [except_bind_error] at hOH
      rcases hOH with hOH | ⟨ps, -, hOH⟩
      · exact absurd (Decimal.try_add_error hOH) (by decide)
      rw [except_bind_error] at hOH
      rcases hOH with hOH | ⟨bonus, -, hOH⟩
      · exact absurd (Decimal.try_add_error hOH) (by decide)
      exact Except.noConfusion hOH
  · unfold Reserve.calculate_bonus
    rw [if_pos hlt]
  · unfold Reserve.calculate_bonus at hb
    split at hb
    next => exact Except.noConfusion hb
    next hnlt =>
      split at hb
      next =>
        rw [except_bind_ok] at hb
        obtain ⟨base, hbase, hb⟩ := hb
        injection hb with hb
        subst hb
        rw [Decimal.try_add_ok] at hbase
        obtain ⟨-, hbase⟩ := hbase
        rw [Decimal.minD_val]
        simp only [Decimal.from_percent, Decimal.from_deca_bps,
          PERCENT_SCALER_eq, BPS_SCALER_eq, MAX_BONUS_PCT,
          MAX_PROTOCOL_LIQUIDATION_FEE_DECA_BPS] at hbase h15 h16 ⊢
        omega
      next =>
        rw [except_bind_ok] at hb
        obtain ⟨num, -, hb⟩ := hb
        rw [except_bind_ok] at hb
        obtain ⟨den, -, hb⟩ := hb
        rw [except_bind_ok] at hb
        obtain ⟨spread, -, hb⟩ := hb
        rw [except_bind_ok] at hb
        obtain ⟨scaled, -, hb⟩ := hb
        rw [except_bind_ok] at hb
        obtain ⟨ps, hps, hb⟩ := hb
        rw [except_bind_ok] at hb
        obtain ⟨bonus, hbonus, hb⟩ := hb
        injection hb with hb
        subst hb
        rw [Decimal.try_add_ok] at hps hbonus
        obtain ⟨-, hps⟩ := hps
        obtain ⟨-, hbonus⟩ := hbonus
        rw [Decimal.minD_val]
        simp only [Decimal.from_percent, Decimal.from_deca_bps,
          PERCENT_SCALER_eq, BPS_SCALER_eq, MAX_BONUS_PCT,
          MAX_PROTOCOL_LIQUIDATION_FEE_DECA_BPS] at hps hbonus h15 h16 ⊢
        omega

/-- Claim C4 (confirmed): borrowing `u64::MAX` returns the minimum of the value-limited, reserve-limited and availability-limited amounts, computes fees inclusively, and receives the floor minus the borrow fee. -/
theorem C4_borrow_max (r : Reserve) (max_borrow_value remaining_reserve_borrow : Decimal)
    (res : CalculateBorrowResult)
    (h : r.calculate_borrow U64_MAX max_borrow_value remaining_reserve_borrow =
      .ok res) :
    res.borrow_amount.val =
      min (min (max_borrow_value.val * 10 ^ r.liquidity.mint_decimals * WAD /
            max r.liquidity.market_price.val r.liquidity.smoothed_market_price.val *
            WAD / r.borrow_weight.val)
          remaining_reserve_borrow.val)
        (r.liquidity.available_amount * WAD) ∧
    r.config.fees.calculate_borrow_fees res.borrow_amount .Inclusive =
      .ok (res.borrow_fee, res.host_fee) ∧
    res.borrow_fee ≤ res.borrow_amount.val / WAD ∧
    res.receive_amount = res.borrow_amount.val / WAD - res.borrow_fee := by
  unfold Reserve.calculate_borrow at h
  rw [except_bind_ok] at h
  obtain ⟨decimals, hdec, h⟩ := h
  rw [if_pos rfl] at h
  rw [except_bind_ok] at h
  obtain ⟨x1, hx1, h⟩ := h
  rw [except_bind_ok] at h
  obtain ⟨x2, hx2, h⟩ := h
  rw [except_bind_ok] at h
  obtain ⟨x3, hx3, h⟩ := h
  rw [except_bind_ok] at h
  obtain ⟨feePair, hfee, h⟩ := h
  rw [except_bind_ok] at h
  obtain ⟨floor_amt, hfloor, h⟩ := h
  rw [except_bind_ok] at h
  obtain ⟨receive, hrecv, h⟩ := h
  injection h with h
  subst h
  simp only [pow10_u64] at hdec
  split at hdec
  case isFalse => exact Except.noConfusion hdec
  case isTrue hdlt =>
    injection hdec with hdec
    subst hdec
    rw [Decimal.try_mul_nat_ok] at hx1
    rw [Decimal.try_div_ok] at hx2
    rw [Decimal.try_div_ok] at hx3
    rw [Decimal.try_floor_u64_ok] at hfloor
    rw [checked_sub_nat_ok] at hrecv
    refine ⟨?_, ?_, ?_, ?_⟩
    · simp only [Decimal.minD_val, Decimal.fromNat]
      rw [hx3.2.2, hx2.2.2, hx1.2]
      rw [Decimal.maxD_val]
    · exact hfee
    · simp only [Decimal.minD_val, Decimal.fromNat] at hfloor ⊢
      omega
    · simp only [Decimal.minD_val, Decimal.fromNat] at hfloor hrecv ⊢
      omega

theorem except_ok_bind {ε α β : Type} (a : α) (f : α → Except ε β) :
    (Except.ok a >>= f) = f a := rfl

theorem except_error_bind {ε α β : Type} (e : ε) (f : α → Except ε β) :
    ((Except.error e : Except ε α) >>= f) = Except.error e := rfl

/-- Claim C6 (confirmed): in the dust regime the liquidation calculator equals the claimed full-repayment specification, including the `LiquidationTooSmall` failure on a zero rounded repayment. -/
theorem C6_dust_liquidation (r : Reserve) (amount_to_liquidate : Nat)
    (obligation : Obligation) (liquidity : ObligationLiquidity)
    (collateral : ObligationCollateral)
    (hdust : liquidity.market_value.val ≤ Decimal.one.val) :
    r.calculate_liquidation amount_to_liquidate obligation liquidity collateral =
      calculate_liquidation_dust_claimed r obligation liquidity collateral := by
  unfold Reserve.calculate_liquidation calculate_liquidation_dust_claimed
  cases hbonus : r.calculate_bonus obligation with
  | error e => rw [except_error_bind, except_error_bind]
  | ok bonus =>
    rw [except_ok_bind, except_ok_bind]
    cases hrate : bonus.try_add Decimal.one with
    | error e => rw [except_error_bind, except_error_bind]
    | ok bonus_rate =>
      rw [except_ok_bind, except_ok_bind]
      rw [if_pos hdust]

theorem c5_round_le {a b : Nat} (h : a ≤ b) :
    (a + WAD / 2) / WAD ≤ (b + WAD / 2) / WAD :=
  Nat.div_le_div_right (by omega)

theorem c5_mul_rate_le (a p : Nat) (hp : p ≤ WAD) : a * p / WAD ≤ a := by
  calc a * p / WAD ≤ a * WAD / WAD := Nat.div_le_div_right (Nat.mul_le_mul_left _ hp)
    _ = a := Nat.mul_div_cancel _ (by norm_num [WAD])

/-- Claim C5 (corrected): host fee is bounded by the total fee and is at least 1 when assessed, but the total fee can exceed a fractional amount; `total_fee <= x` holds in Inclusive mode or when `x` is integral. -/
theorem C5_fee_bounds_amended (fees : ReserveFees) (x : Decimal)
    (mode : FeeCalculation) (total_fee host_fee : Nat)
    (hwad : fees.borrow_fee_wad < WAD)
    (hpct : fees.host_fee_percentage ≤ 100)
    (h : fees.calculate_borrow_fees x mode = .ok (total_fee, host_fee)) :
    host_fee ≤ total_fee ∧
    (0 < fees.host_fee_percentage → 0 < fees.borrow_fee_wad → 0 < x.val →
      1 ≤ host_fee) ∧
    ((mode = .Inclusive ∨ x.val % WAD = 0) → total_fee * WAD ≤ x.val) := by
  unfold ReserveFees.calculate_borrow_fees ReserveFees.calculate_fees at h
  split at h
  next =>
    simp only [] at h
    simp only [Rate.from_scaled_val, Rate.from_percent] at h
    by_cases hcond : 0 < fees.borrow_fee_wad ∧ 0 < x.val
    case neg =>
      rw [if_neg hcond] at h
      injection h with h
      have h1 : total_fee = 0 := (congrArg Prod.fst h).symm
      have h2 : host_fee = 0 := (congrArg Prod.snd h).symm
      subst h1
      subst h2
      exact ⟨Nat.le_refl 0, fun hp hw hx => absurd ⟨hw, hx⟩ hcond, fun _ => by omega⟩
    case pos =>
      rw [if_pos hcond] at h
      rw [except_bind_ok] at h
      obtain ⟨fa, -, h⟩ := h
      by_cases hneed : 0 < fees.host_fee_percentage * PERCENT_SCALER
      · simp only [if_pos hneed] at h
        split at h
        next => exact Except.noConfusion h
        next hsmall =>
          rw [except_bind_ok] at h
          obtain ⟨tf, htf, h⟩ := h
          rw [except_bind_ok] at h
          obtain ⟨scaled, hscaled, h⟩ := h
          rw [except_bind_ok] at h
          obtain ⟨rounded, hrounded, h⟩ := h
          rw [except_bind_ok] at h
          obtain ⟨host, hhost, h⟩ := h
          injection h with h
          injection h with h1 h2
          subst h1
          subst h2
          injection hhost with hhost
          subst hhost
          unfold Decimal.try_mul_rate Decimal.fromRate at hscaled
          rw [Decimal.try_round_u64_ok] at htf hrounded
          rw [Decimal.try_mul_ok] at hscaled
          simp only [Decimal.maxD_val, Decimal.fromNat] at htf hscaled hsmall
          obtain ⟨-, -, htf⟩ := htf
          obtain ⟨-, hscaled⟩ := hscaled
          obtain ⟨-, -, hrounded⟩ := hrounded
          have hfd2 : 2 * WAD ≤ max fa.val (2 * WAD) := Nat.le_max_right _ _
          have hfdc := max_choice fa.val (2 * WAD)
          have hsv : max fa.val (2 * WAD) * (fees.host_fee_percentage * PERCENT_SCALER) / WAD ≤
              max fa.val (2 * WAD) :=
            c5_mul_rate_le _ _ (by rw [PERCENT_SCALER_eq, WAD_eq]; omega)
          have hround_le : rounded ≤ tf := by
            have hsc2 : scaled.val ≤ max fa.val (2 * WAD) := by
              rw [hscaled]
              exact hsv
            rw [htf, hrounded]
            exact c5_round_le hsc2
          have htf1 : 1 ≤ tf := by
            rw [htf]
            rw [WAD_eq] at hfd2 ⊢
            omega
          refine ⟨Nat.max_le.mpr ⟨hround_le, htf1⟩,
            fun _ _ _ => Nat.le_max_right _ _, fun hmode => ?_⟩
          rcases hmode with hmode | hint
          · exact absurd hmode (by decide)
          · rw [htf]
            rw [WAD_eq] at hint hsmall ⊢
            rcases hfdc with hc | hc <;> rw [WAD_eq] at hc <;> rw [hc] at hsmall ⊢ <;> omega
      · simp only [if_neg hneed] at h
        split at h
        next => exact Except.noConfusion h
        next hsmall =>
          rw [except_bind_ok] at h
          obtain ⟨tf, htf, h⟩ := h
          rw [except_bind_ok] at h
          obtain ⟨host, hhost, h⟩ := h
          injection h with h
          injection h with h1 h2
          subst h1
          subst h2
          injection hhost with hhost
          subst hhost
          rw [Decimal.try_round_u64_ok] at htf
          simp only [Decimal.maxD_val, Decimal.fromNat] at htf hsmall
          obtain ⟨-, -, htf⟩ := htf
          have hfd1 : 1 * WAD ≤ max fa.val (1 * WAD) := Nat.le_max_right _ _
          have hfdc := max_choice fa.val (1 * WAD)
          refine ⟨by omega,
            fun hp _ _ => absurd
              (by rw [PERCENT_SCALER_eq]; omega :
                0 < fees.host_fee_percentage * PERCENT_SCALER) hneed,
            fun hmode => ?_⟩
          rcases hmode with hmode | hint
          · exact absurd hmode (by decide)
          · rw [htf]
            rw [WAD_eq] at hint hsmall ⊢
            rcases hfdc with hc | hc <;> rw [WAD_eq] at hc <;> rw [hc] at hsmall ⊢ <;> omega
  next =>
    simp only [] at h
    simp only [Rate.from_scaled_val, Rate.from_percent] at h
    by_cases hcond : 0 < fees.borrow_fee_wad ∧ 0 < x.val
    case neg =>
      rw [if_neg hcond] at h
      injection h with h
      have h1 : total_fee = 0 := (congrArg Prod.fst h).symm
      have h2 : host_fee = 0 := (congrArg Prod.snd h).symm
      subst h1
      subst h2
      exact ⟨Nat.le_refl 0, fun hp hw hx => absurd ⟨hw, hx⟩ hcond, fun _ => by omega⟩
    case pos =>
      rw [if_pos hcond] at h
      rw [except_bind_ok] at h
      obtain ⟨denom, hdenom0, h⟩ := h
      rw [except_bind_ok] at h
      obtain ⟨irate, hirate0, h⟩ := h
      rw [except_bind_ok] at h
      obtain ⟨fa, hfa0, h⟩ := h
      by_cases hneed : 0 < fees.host_fee_percentage * PERCENT_SCALER
      · simp only [if_pos hneed] at h
        split at h
        next => exact Except.noConfusion h
        next hsmall =>
          rw [except_bind_ok] at h
          obtain ⟨tf, htf, h⟩ := h
          rw [except_bind_ok] at h
          obtain ⟨scaled, hscaled, h⟩ := h
          rw [except_bind_ok] at h
          obtain ⟨rounded, hrounded, h⟩ := h
          rw [except_bind_ok] at h
          obtain ⟨host, hhost, h⟩ := h
          injection h with h
          injection h with h1 h2
          subst h1
          subst h2
          injection hhost with hhost
          subst hhost
          unfold Decimal.try_mul_rate Decimal.fromRate at hscaled
          rw [Decimal.try_round_u64_ok] at htf hrounded
          rw [Decimal.try_mul_ok] at hscaled
          simp only [Decimal.maxD_val, Decimal.fromNat] at htf hscaled hsmall
          obtain ⟨-, -, htf⟩ := htf
          obtain ⟨-, hscaled⟩ := hscaled
          obtain ⟨-, -, hrounded⟩ := hrounded
          have hfd2 : 2 * WAD ≤ max fa.val (2 * WAD) := Nat.le_max_right _ _
          have hfdc := max_choice fa.val (2 * WAD)
          have hsv : max fa.val (2 * WAD) * (fees.host_fee_percentage * PERCENT_SCALER) / WAD ≤
              max fa.val (2 * WAD) :=
            c5_mul_rate_le _ _ (by rw [PERCENT_SCALER_eq, WAD_eq]; omega)
          have hround_le : rounded ≤ tf := by
            have hsc2 : scaled.val ≤ max fa.val (2 * WAD) := by
              rw [hscaled]
              exact hsv
            rw [htf, hrounded]
            exact c5_round_le hsc2
          have htf1 : 1 ≤ tf := by
            rw [htf]
            rw [WAD_eq] at hfd2 ⊢
            omega
          refine ⟨Nat.max_le.mpr ⟨hround_le, htf1⟩,
            fun _ _ _ => Nat.le_max_right _ _, fun hmode => ?_⟩
          rw [Rate.try_add_ok_rate] at hdenom0
          rw [Rate.try_div_ok_rate] at hirate0
          unfold Decimal.try_mul_rate Decimal.fromRate at hfa0
          rw [Decimal.try_mul_ok] at hfa0
          have hdenom : denom.val = fees.borrow_fee_wad + WAD := hdenom0.2
          have hirate : irate.val = fees.borrow_fee_wad * WAD / denom.val := hirate0.2.2
          have hfa : fa.val = x.val * irate.val / WAD := hfa0.2
          have hirlt : irate.val < WAD / 2 := by
            rw [hirate, hdenom]
            rw [Nat.div_lt_iff_lt_mul (by rw [WAD_eq]; omega)]
            rw [WAD_eq] at hwad ⊢
            omega
          have hfaW : fa.val * WAD ≤ x.val * (WAD / 2 - 1) := by
            have h1 : fa.val ≤ x.val * (WAD / 2 - 1) / WAD := by
              rw [hfa]
              refine Nat.div_le_div_right (Nat.mul_le_mul_left _ ?_)
              rw [WAD_eq] at hirlt ⊢
              omega
            calc fa.val * WAD ≤ x.val * (WAD / 2 - 1) / WAD * WAD :=
                  Nat.mul_le_mul_right _ h1
              _ ≤ x.val * (WAD / 2 - 1) := Nat.div_mul_le_self _ _
          rw [htf]
          rw [WAD_eq] at hfaW hsmall ⊢
          rcases hfdc with hc | hc <;> rw [WAD_eq] at hc <;> rw [hc] at hsmall ⊢ <;> omega
      · simp only [if_neg hneed] at h
        split at h
        next => exact Except.noConfusion h
        next hsmall =>
          rw [except_bind_ok] at h
          obtain ⟨tf, htf, h⟩ := h
          rw [except_bind_ok] at h
          obtain ⟨host, hhost, h⟩ := h
          injection h with h
          injection h with h1 h2
          subst h1
          subst h2
          injection hhost with hhost
          subst hhost
          rw [Decimal.try_round_u64_ok] at htf
          simp only [Decimal.maxD_val, Decimal.fromNat] at htf hsmall
          obtain ⟨-, -, htf⟩ := htf
          have hfd1 : 1 * WAD ≤ max fa.val (1 * WAD) := Nat.le_max_right _ _
          have hfdc := max_choice fa.val (1 * WAD)
          refine ⟨by omega,
            fun hp _ _ => absurd
              (by rw [PERCENT_SCALER_eq]; omega :
                0 < fees.host_fee_percentage * PERCENT_SCALER) hneed,
            fun hmode => ?_⟩
          rw [Rate.try_add_ok_rate] at hdenom0
          rw [Rate.try_div_ok_rate] at hirate0
          unfold Decimal.try_mul_rate Decimal.fromRate at hfa0
          rw [Decimal.try_mul_ok] at hfa0
          have hdenom : denom.val = fees.borrow_fee_wad + WAD := hdenom0.2
          have hirate : irate.val = fees.borrow_fee_wad * WAD / denom.val := hirate0.2.2
          have hfa : fa.val = x.val * irate.val / WAD := hfa0.2
          have hirlt : irate.val < WAD / 2 := by
            rw [hirate, hdenom]
            rw [Nat.div_lt_iff_lt_mul (by rw [WAD_eq]; omega)]
            rw [WAD_eq] at hwad ⊢
            omega
          have hfaW : fa.val * WAD ≤ x.val * (WAD / 2 - 1) := by
            have h1 : fa.val ≤ x.val * (WAD / 2 - 1) / WAD := by
              rw [hfa]
              refine Nat.div_le_div_right (Nat.mul_le_mul_left _ ?_)
              rw [WAD_eq] at hirlt ⊢
              omega
            calc fa.val * WAD ≤ x.val * (WAD / 2 - 1) / WAD * WAD :=
                  Nat.mul_le_mul_right _ h1
              _ ≤ x.val * (WAD / 2 - 1) := Nat.div_mul_le_self _ _
          rw [htf]
          rw [WAD_eq] at hfaW hsmall ⊢
          rcases hfdc with hc | hc <;> rw [WAD_eq] at hc <;> rw [hc] at hsmall ⊢ <;> omega

theorem utilization_rate_le_one {liq : ReserveLiquidity} {u : Rate}
    (h : liq.utilization_rate = .ok u) : u.val ≤ WAD := by
  have hc := C1_utilization_rate_amended liq u h
  split at hc
  · rw [hc]
    exact Nat.zero_le _
  · rw [hc]
    have hle : liq.borrowed_amount_wads.val * WAD ≤
        (liq.borrowed_amount_wads.val + liq.available_amount * WAD) * WAD :=
      Nat.mul_le_mul_right _ (by omega)
    by_cases hz : liq.borrowed_amount_wads.val + liq.available_amount * WAD = 0
    · rw [hz]
      simp
    · calc liq.borrowed_amount_wads.val * WAD /
            (liq.borrowed_amount_wads.val + liq.available_amount * WAD) ≤
          (liq.borrowed_amount_wads.val + liq.available_amount * WAD) * WAD /
            (liq.borrowed_amount_wads.val + liq.available_amount * WAD) :=
            Nat.div_le_div_right (Nat.mul_le_mul_right _ (by omega))
        _ = WAD := Nat.mul_div_cancel_left _ (by omega)

theorem mul_div_wad_le_right {a b : Nat} (ha : a ≤ WAD) : a * b / WAD ≤ b := by
  calc a * b / WAD ≤ WAD * b / WAD :=
        Nat.div_le_div_right (Nat.mul_le_mul_right _ ha)
    _ = b := Nat.mul_div_cancel_left _ (by norm_num [WAD])

theorem mul_wad_div_le_wad {a d : Nat} (ha : a ≤ d) (hd : d ≠ 0) :
    a * WAD / d ≤ WAD := by
  calc a * WAD / d ≤ d * WAD / d :=
        Nat.div_le_div_right (Nat.mul_le_mul_right _ ha)
    _ = WAD := Nat.mul_div_cancel_left _ (by omega)

theorem Rate.val_mk_rate (n : Nat) : (⟨n⟩ : Rate).val = n := rfl

theorem Decimal.val_mk (n : Nat) : (⟨n⟩ : Decimal).val = n := rfl

theorem Rate.from_percent_val_rate (p : Nat) :
    (Rate.from_percent p).val = p * PERCENT_SCALER := rfl

theorem Rate.from_percent_u64_val (p : Nat) :
    (Rate.from_percent_u64 p).val = p * PERCENT_SCALER := rfl

theorem Rate.one_val_rate : Rate.one.val = WAD := rfl

theorem Rate.zero_val_rate : Rate.zero.val = 0 := rfl

theorem Decimal.one_val : Decimal.one.val = WAD := rfl

theorem Decimal.zero_val : Decimal.zero.val = 0 := rfl

theorem Decimal.fromRate_val (r : Rate) : (Decimal.fromRate r).val = r.val := rfl

theorem Decimal.fromNat_val (n : Nat) : (Decimal.fromNat n).val = n * WAD := rfl

theorem Decimal.from_percent_val (p : Nat) :
    (Decimal.from_percent p).val = p * PERCENT_SCALER := rfl

theorem Decimal.from_deca_bps_val (d : Nat) :
    (Decimal.from_deca_bps d).val = d * 10 * BPS_SCALER := rfl

theorem borrow_rate_bounds (r : Reserve) (rate : Rate)
    (hcfg : validate_reserve_config r.config = .ok ())
    (hrate : r.current_borrow_rate = .ok rate) :
    (Rate.from_percent r.config.min_borrow_rate).val ≤ rate.val ∧
    rate.val ≤ (Rate.from_percent_u64 r.config.super_max_borrow_rate).val := by
  obtain ⟨-, -, hmu100, -, -, -, -, -, -, hminopt, hoptmax, hmaxsuper, -, -, -,
    -, -⟩ := validate_reserve_config_ok hcfg
  unfold Reserve.current_borrow_rate at hrate
  rw [except_bind_ok] at hrate
  obtain ⟨u, hu, hrate⟩ := hrate
  have hule := utilization_rate_le_one hu
  simp only [] at hrate
  split at hrate
  next hbranch1 =>
    split at hrate
    next hoz =>
      injection hrate with hrate
      subst hrate
      simp only [Rate.from_percent_val_rate, Rate.from_percent_u64_val,
        PERCENT_SCALER_eq] at *
      omega
    next hoz =>
      rw [except_bind_ok] at hrate
      obtain ⟨normalized, hnorm, hrate⟩ := hrate
      rw [except_bind_ok] at hrate
      obtain ⟨diff, hdiff, hrate⟩ := hrate
      rw [except_bind_ok] at hrate
      obtain ⟨scaled, hscaled, hrate⟩ := hrate
      rw [Rate.try_div_ok_rate] at hnorm
      rw [checked_sub_nat_ok] at hdiff
      rw [Rate.try_mul_ok_rate] at hscaled
      rw [Rate.try_add_ok_rate] at hrate
      obtain ⟨-, -, hnorm⟩ := hnorm
      obtain ⟨hdle, hdiff⟩ := hdiff
      obtain ⟨-, hscaled⟩ := hscaled
      obtain ⟨-, hrate⟩ := hrate
      have hoptnz : (Rate.from_percent r.config.optimal_utilization_rate).val ≠ 0 := by
        intro hzz
        apply hoz
        unfold Rate.from_percent at hzz ⊢
        unfold Rate.zero
        rw [Rate.val_mk_rate] at hzz
        rw [hzz]
      have hn1 : normalized.val ≤ WAD := by
        rw [hnorm]
        exact mul_wad_div_le_wad hbranch1 hoptnz
      have hs1 : scaled.val ≤ (Rate.from_percent diff).val := by
        rw [hscaled]
        exact mul_div_wad_le_right hn1
      subst hdiff
      simp only [Rate.from_percent_val_rate, Rate.from_percent_u64_val, Rate.val_mk_rate,
        Decimal.val_mk, Decimal.fromRate_val, Rate.one_val_rate, Rate.zero_val_rate,
        PERCENT_SCALER_eq, WAD_eq] at *
      omega
  next hbranch1 =>
    split at hrate
    next hbranch2 =>
      rw [except_bind_ok] at hrate
      obtain ⟨num, hnum, hrate⟩ := hrate
      rw [except_bind_ok] at hrate
      obtain ⟨den, hden, hrate⟩ := hrate
      rw [except_bind_ok] at hrate
      obtain ⟨weight, hweight, hrate⟩ := hrate
      rw [except_bind_ok] at hrate
      obtain ⟨rate_range, hrange, hrate⟩ := hrate
      rw [except_bind_ok] at hrate
      obtain ⟨scaled, hscaled, hrate⟩ := hrate
      rw [Rate.try_sub_ok_rate] at hnum hden hrange
      rw [Rate.try_div_ok_rate] at hweight
      rw [Rate.try_mul_ok_rate] at hscaled
      rw [Rate.try_add_ok_rate] at hrate
      obtain ⟨hnle, hnum⟩ := hnum
      obtain ⟨hdle, hden⟩ := hden
      obtain ⟨-, hdnz, hweight⟩ := hweight
      obtain ⟨hrle, hrange⟩ := hrange
      obtain ⟨-, hscaled⟩ := hscaled
      obtain ⟨-, hrate⟩ := hrate
      have hw1 : weight.val ≤ WAD := by
        rw [hweight, hnum, hden]
        refine mul_wad_div_le_wad (by omega) ?_
        rw [hden] at hdnz
        exact hdnz
      have hs1 : scaled.val ≤ rate_range.val := by
        rw [hscaled]
        exact mul_div_wad_le_right hw1
      simp only [Rate.from_percent_val_rate, Rate.from_percent_u64_val, Rate.val_mk_rate,
        Decimal.val_mk, Decimal.fromRate_val, Rate.one_val_rate, Rate.zero_val_rate,
        PERCENT_SCALER_eq, WAD_eq] at *
      omega
    next hbranch2 =>
      rw [except_bind_ok] at hrate
      obtain ⟨num, hnum, hrate⟩ := hrate
      rw [except_bind_ok] at hrate
      obtain ⟨diff, hdiff, hrate⟩ := hrate
      rw [except_bind_ok] at hrate
      obtain ⟨weightR, hweightR, hrate⟩ := hrate
      rw [except_bind_ok] at hrate
      obtain ⟨range, hrange, hrate⟩ := hrate
      rw [except_bind_ok] at hrate
      obtain ⟨scaled, hscaled, hrate⟩ := hrate
      rw [except_bind_ok] at hrate
      obtain ⟨summed, hsummed, hrate⟩ := hrate
      rw [Rate.try_sub_ok_rate] at hnum hrange
      rw [checked_sub_nat_ok] at hdiff
      rw [Rate.try_div_ok_rate] at hweightR
      rw [Decimal.try_mul_ok] at hscaled
      rw [Decimal.try_add_ok] at hsummed
      rw [Rate.try_from_ok] at hrate
      obtain ⟨hnle, hnum⟩ := hnum
      obtain ⟨hdle, hdiff⟩ := hdiff
      obtain ⟨-, hdnz, hweightR⟩ := hweightR
      obtain ⟨hrle, hrange⟩ := hrange
      obtain ⟨-, hscaled⟩ := hscaled
      obtain ⟨-, hsummed⟩ := hsummed
      obtain ⟨-, hrate⟩ := hrate
      have hw1 : weightR.val ≤ WAD := by
        rw [hweightR, hnum]
        refine mul_wad_div_le_wad ?_ hdnz
        have h100 : WAD = (Rate.from_percent 100).val := by
          rw [Rate.from_percent_val_rate, PERCENT_SCALER_eq, WAD_eq]
        simp only [Rate.from_percent_val_rate, PERCENT_SCALER_eq, WAD_eq] at hule ⊢
        omega
      have hs1 : scaled.val ≤ (Decimal.fromRate range).val := by
        rw [hscaled]
        exact mul_div_wad_le_right hw1
      simp only [Rate.from_percent_val_rate, Rate.from_percent_u64_val, Rate.val_mk_rate,
        Decimal.val_mk, Decimal.fromRate_val, Rate.one_val_rate, Rate.zero_val_rate,
        PERCENT_SCALER_eq, WAD_eq] at *
      omega

theorem borrow_rate_at_optimal_knee (r : Reserve) (u : Rate)
    (hcfg : validate_reserve_config r.config = .ok ())
    (hwf : r.config.WF)
    (hu : r.liquidity.utilization_rate = .ok u)
    (hueq : u = Rate.from_percent r.config.optimal_utilization_rate)
    (honz : r.config.optimal_utilization_rate ≠ 0) :
    r.current_borrow_rate = .ok (Rate.from_percent r.config.optimal_borrow_rate) := by
  obtain ⟨h1, -, -, -, -, -, -, -, -, hminopt, -, -, -, -, -, -, -⟩ :=
    validate_reserve_config_ok hcfg
  obtain ⟨-, -, -, -, -, -, -, hw8, hw9, -⟩ := hwf
  unfold Reserve.current_borrow_rate
  rw [hu, except_ok_bind]
  subst hueq
  simp only []
  rw [if_pos (Nat.le_refl _)]
  rw [if_neg (by
    intro hz
    apply honz
    have := congrArg Rate.val hz
    rw [Rate.from_percent_val_rate, Rate.zero_val_rate, PERCENT_SCALER_eq] at this
    omega)]
  have hdiv : Rate.try_div (Rate.from_percent r.config.optimal_utilization_rate)
      (Rate.from_percent r.config.optimal_utilization_rate) = .ok ⟨WAD⟩ := by
    rw [Rate.try_div_ok_rate]
    refine ⟨?_, ?_, ?_⟩
    · rw [Rate.from_percent_val_rate, PERCENT_SCALER_eq, U128_MOD_eq, WAD_eq]
      omega
    · rw [Rate.from_percent_val_rate, PERCENT_SCALER_eq]
      omega
    · rw [Rate.val_mk_rate, Rate.from_percent_val_rate]
      exact (Nat.mul_div_cancel_left _ (by rw [PERCENT_SCALER_eq]; omega)).symm
  rw [hdiv, except_ok_bind]
  have hsub : checked_sub_nat r.config.optimal_borrow_rate r.config.min_borrow_rate =
      .ok (r.config.optimal_borrow_rate - r.config.min_borrow_rate) :=
    checked_sub_nat_ok.mpr ⟨hminopt, rfl⟩
  rw [hsub, except_ok_bind]
  have hmul : Rate.try_mul ⟨WAD⟩
      (Rate.from_percent (r.config.optimal_borrow_rate - r.config.min_borrow_rate)) =
      .ok ⟨(r.config.optimal_borrow_rate - r.config.min_borrow_rate) * PERCENT_SCALER⟩ := by
    rw [Rate.try_mul_ok_rate]
    refine ⟨?_, ?_⟩
    · rw [Rate.val_mk_rate, Rate.from_percent_val_rate, PERCENT_SCALER_eq, U128_MOD_eq, WAD_eq]
      omega
    · rw [Rate.val_mk_rate, Rate.val_mk_rate, Rate.from_percent_val_rate]
      exact (Nat.mul_div_cancel_left _ (by rw [WAD_eq]; omega)).symm
  rw [hmul, except_ok_bind]
  rw [Rate.try_add_ok_rate]
  refine ⟨?_, ?_⟩
  · rw [Rate.val_mk_rate, Rate.from_percent_val_rate, PERCENT_SCALER_eq, U128_MOD_eq]
    omega
  · rw [Rate.from_percent_val_rate, Rate.val_mk_rate, Rate.val_mk_rate, Rate.from_percent_val_rate,
      PERCENT_SCALER_eq]
    omega

theorem borrow_rate_at_max_knee (r : Reserve) (u : Rate)
    (hcfg : validate_reserve_config r.config = .ok ())
    (hwf : r.config.WF)
    (hu : r.liquidity.utilization_rate = .ok u)
    (hueq : u = Rate.from_percent r.config.max_utilization_rate)
    (hlt : r.config.optimal_utilization_rate < r.config.max_utilization_rate) :
    r.current_borrow_rate = .ok (Rate.from_percent r.config.max_borrow_rate) := by
  obtain ⟨-, -, -, -, -, -, -, -, -, -, hoptmaxb, -, -, -, -, -, -⟩ :=
    validate_reserve_config_ok hcfg
  obtain ⟨-, hw2, -, -, -, -, -, -, -, hw10, -⟩ := hwf
  unfold Reserve.current_borrow_rate
  rw [hu, except_ok_bind]
  subst hueq
  simp only []
  rw [if_neg (by
    rw [Rate.from_percent_val_rate, Rate.from_percent_val_rate, PERCENT_SCALER_eq]
    omega)]
  rw [if_pos (Nat.le_refl _)]
  have hnum : Rate.try_sub (Rate.from_percent r.config.max_utilization_rate)
      (Rate.from_percent r.config.optimal_utilization_rate) =
      .ok ⟨(r.config.max_utilization_rate - r.config.optimal_utilization_rate) *
        PERCENT_SCALER⟩ := by
    rw [Rate.try_sub_ok_rate]
    refine ⟨?_, ?_⟩
    · rw [Rate.from_percent_val_rate, Rate.from_percent_val_rate, PERCENT_SCALER_eq]
      omega
    · rw [Rate.val_mk_rate, Rate.from_percent_val_rate, Rate.from_percent_val_rate, PERCENT_SCALER_eq]
      omega
  rw [hnum, except_ok_bind, except_ok_bind]
  have hweight : Rate.try_div
      ⟨(r.config.max_utilization_rate - r.config.optimal_utilization_rate) *
        PERCENT_SCALER⟩
      ⟨(r.config.max_utilization_rate - r.config.optimal_utilization_rate) *
        PERCENT_SCALER⟩ = .ok ⟨WAD⟩ := by
    rw [Rate.try_div_ok_rate]
    refine ⟨?_, ?_, ?_⟩
    · rw [Rate.val_mk_rate, PERCENT_SCALER_eq, U128_MOD_eq, WAD_eq]
      omega
    · rw [Rate.val_mk_rate, PERCENT_SCALER_eq]
      omega
    · rw [Rate.val_mk_rate, Rate.val_mk_rate]
      exact (Nat.mul_div_cancel_left _ (by rw [PERCENT_SCALER_eq]; omega)).symm
  rw [hweight, except_ok_bind]
  have hrange : Rate.try_sub (Rate.from_percent r.config.max_borrow_rate)
      (Rate.from_percent r.config.optimal_borrow_rate) =
      .ok ⟨(r.config.max_borrow_rate - r.config.optimal_borrow_rate) *
        PERCENT_SCALER⟩ := by
    rw [Rate.try_sub_ok_rate]
    refine ⟨?_, ?_⟩
    · rw [Rate.from_percent_val_rate, Rate.from_percent_val_rate, PERCENT_SCALER_eq]
      omega
    · rw [Rate.val_mk_rate, Rate.from_percent_val_rate, Rate.from_percent_val_rate, PERCENT_SCALER_eq]
      omega
  rw [hrange, except_ok_bind]
  have hscaled : Rate.try_mul ⟨WAD⟩
      ⟨(r.config.max_borrow_rate - r.config.optimal_borrow_rate) * PERCENT_SCALER⟩ =
      .ok ⟨(r.config.max_borrow_rate - r.config.optimal_borrow_rate) *
        PERCENT_SCALER⟩ := by
    rw [Rate.try_mul_ok_rate]
    refine ⟨?_, ?_⟩
    · rw [Rate.val_mk_rate, Rate.val_mk_rate, PERCENT_SCALER_eq, U128_MOD_eq, WAD_eq]
      omega
    · have hwpos : 0 < WAD := by rw [WAD_eq]; omega
      exact (Nat.mul_div_cancel_left _ hwpos).symm
  rw [hscaled, except_ok_bind]
  rw [Rate.try_add_ok_rate]
  refine ⟨?_, ?_⟩
  · rw [Rate.val_mk_rate, Rate.from_percent_val_rate, PERCENT_SCALER_eq, U128_MOD_eq]
    omega
  · rw [Rate.from_percent_val_rate, Rate.val_mk_rate, Rate.val_mk_rate, Rate.from_percent_val_rate,
      PERCENT_SCALER_eq]
    omega

/-- Claim C2, counterexample: a validated config with both knees at zero utilization, where the rate at the knee is `min_borrow_rate`, not the claimed knee rates. -/
theorem C2_borrow_rate_curve_counterexample :
    validate_reserve_config c2Reserve.config = .ok () ∧
    c2Reserve.liquidity.utilization_rate =
      .ok (Rate.from_percent c2Reserve.config.optimal_utilization_rate) ∧
    c2Reserve.liquidity.utilization_rate =
      .ok (Rate.from_percent c2Reserve.config.max_utilization_rate) ∧
    c2Reserve.current_borrow_rate ≠
      .ok (Rate.from_percent c2Reserve.config.optimal_borrow_rate) ∧
    c2Reserve.current_borrow_rate ≠
      .ok (Rate.from_percent c2Reserve.config.max_borrow_rate) := by decide

/-- Claim C2 (corrected): under a validated, machine-ranged config the borrow rate is bounded by `min_borrow_rate` and `super_max_borrow_rate`; the knee equalities hold at the optimal knee only when `optimal_utilization_rate` is nonzero, and at the max knee only when the two knees are distinct. -/
theorem C2_borrow_rate_curve_amended (r : Reserve) (u : Rate)
    (hcfg : validate_reserve_config r.config = .ok ())
    (hwf : r.config.WF)
    (hu : r.liquidity.utilization_rate = .ok u) :
    (∀ rate, r.current_borrow_rate = .ok rate →
      (Rate.from_percent r.config.min_borrow_rate).val ≤ rate.val ∧
      rate.val ≤ (Rate.from_percent_u64 r.config.super_max_borrow_rate).val) ∧
    (u = Rate.from_percent r.config.optimal_utilization_rate →
      r.config.optimal_utilization_rate ≠ 0 →
      r.current_borrow_rate = .ok (Rate.from_percent r.config.optimal_borrow_rate)) ∧
    (u = Rate.from_percent r.config.max_utilization_rate →
      r.config.optimal_utilization_rate < r.config.max_utilization_rate →
      r.current_borrow_rate = .ok (Rate.from_percent r.config.max_borrow_rate)) := by
  refine ⟨fun rate hrate => borrow_rate_bounds r rate hcfg hrate, ?_, ?_⟩
  · exact fun hueq honz => borrow_rate_at_optimal_knee r u hcfg hwf hu hueq honz
  · exact fun hueq hlt => borrow_rate_at_max_knee r u hcfg hwf hu hueq hlt

theorem C2_borrow_rate_curve_amended_witness :
    validate_reserve_config c2WitnessReserve.config = .ok () ∧
    c2WitnessReserve.config.WF ∧
    c2WitnessReserve.liquidity.utilization_rate = .ok ⟨8 * 10 ^ 17⟩ ∧
    ((∀ rate, c2WitnessReserve.current_borrow_rate = .ok rate →
      (Rate.from_percent c2WitnessReserve.config.min_borrow_rate).val ≤ rate.val ∧
      rate.val ≤
        (Rate.from_percent_u64 c2WitnessReserve.config.super_max_borrow_rate).val) ∧
    (⟨8 * 10 ^ 17⟩ = Rate.from_percent c2WitnessReserve.config.optimal_utilization_rate →
      c2WitnessReserve.config.optimal_utilization_rate ≠ 0 →
      c2WitnessReserve.current_borrow_rate =
        .ok (Rate.from_percent c2WitnessReserve.config.optimal_borrow_rate)) ∧
    (⟨8 * 10 ^ 17⟩ = Rate.from_percent c2WitnessReserve.config.max_utilization_rate →
      c2WitnessReserve.config.optimal_utilization_rate <
        c2WitnessReserve.config.max_utilization_rate →
      c2WitnessReserve.current_borrow_rate =
        .ok (Rate.from_percent c2WitnessReserve.config.max_borrow_rate))) :=
  ⟨by decide, by decide, by decide,
    C2_borrow_rate_curve_amended c2WitnessReserve ⟨8 * 10 ^ 17⟩ (by decide) (by decide) (by decide)⟩

/-- Claim C5, counterexample: an Exclusive 97 percent fee on 1.6 units yields fee 2, which exceeds the amount. -/
theorem C5_fee_bounds_counterexample :
    ReserveFees.calculate_borrow_fees
      { borrow_fee_wad := 970000000000000000, flash_loan_fee_wad := 0,
        host_fee_percentage := 0 }
      ⟨1600000000000000000⟩ .Exclusive = .ok (2, 0) ∧
    (970000000000000000 : Nat) < WAD ∧
    ¬(2 * WAD ≤ 1600000000000000000) := by decide

theorem C1_utilization_rate_amended_witness :
    ReserveLiquidity.utilization_rate c1_liq = .ok ⟨5 * 10 ^ 17⟩ ∧
    (⟨5 * 10 ^ 17⟩ : Rate).val =
      (if c1_liq.available_amount * WAD + c1_liq.borrowed_amount_wads.val -
          c1_liq.accumulated_protocol_fees_wads.val = 0 ∨
          c1_liq.borrowed_amount_wads.val = 0 then 0
      else c1_liq.borrowed_amount_wads.val * WAD /
        (c1_liq.borrowed_amount_wads.val + c1_liq.available_amount * WAD)) :=
  ⟨by decide, C1_utilization_rate_amended c1_liq ⟨5 * 10 ^ 17⟩ (by decide)⟩

theorem C3_calculate_bonus_witness :
    (c3Reserve.calculate_bonus Obligation.default =
        .error (.lendingErr .ObligationHealthy) ↔
      Obligation.default.borrowed_value.val <
        Obligation.default.unhealthy_borrow_value.val) ∧
    ∀ b : Decimal, c3Reserve.calculate_bonus Obligation.default = .ok b →
      b.val ≤ (Decimal.from_percent MAX_BONUS_PCT).val ∧
      (Decimal.from_percent c3Reserve.config.liquidation_bonus).val +
        (Decimal.from_deca_bps c3Reserve.config.protocol_liquidation_fee).val ≤
        b.val :=
  C3_calculate_bonus c3Reserve Obligation.default (by decide)

theorem C4_borrow_max_witness :
    c4Reserve.calculate_borrow U64_MAX (Decimal.fromNat 10)
      (Decimal.fromNat 1000) =
      .ok { borrow_amount := ⟨10 * WAD⟩, receive_amount := 10,
            borrow_fee := 0, host_fee := 0 } ∧
    ((⟨10 * WAD⟩ : Decimal).val =
      min (min ((Decimal.fromNat 10).val * 10 ^ c4Reserve.liquidity.mint_decimals *
            WAD /
            max c4Reserve.liquidity.market_price.val
              c4Reserve.liquidity.smoothed_market_price.val *
            WAD / c4Reserve.borrow_weight.val)
          (Decimal.fromNat 1000).val)
        (c4Reserve.liquidity.available_amount * WAD) ∧
    c4Reserve.config.fees.calculate_borrow_fees ⟨10 * WAD⟩ .Inclusive =
      .ok (0, 0) ∧
    (0 : Nat) ≤ (⟨10 * WAD⟩ : Decimal).val / WAD ∧
    (10 : Nat) = (⟨10 * WAD⟩ : Decimal).val / WAD - 0) :=
  ⟨by decide,
    C4_borrow_max c4Reserve (Decimal.fromNat 10) (Decimal.fromNat 1000)
      { borrow_amount := ⟨10 * WAD⟩, receive_amount := 10,
        borrow_fee := 0, host_fee := 0 } (by decide)⟩

theorem C5_fee_bounds_amended_witness :
    (10000000000000000 : Nat) < WAD ∧ (20 : Nat) ≤ 100 ∧
    ReserveFees.calculate_borrow_fees
      { borrow_fee_wad := 10000000000000000, flash_loan_fee_wad := 0,
        host_fee_percentage := 20 }
      (Decimal.fromNat 1000) .Exclusive = .ok (10, 2) ∧
    ((2 : Nat) ≤ 10 ∧
    (0 < (20 : Nat) → 0 < (10000000000000000 : Nat) →
      0 < (Decimal.fromNat 1000).val → 1 ≤ (2 : Nat)) ∧
    ((FeeCalculation.Exclusive = .Inclusive ∨ (Decimal.fromNat 1000).val % WAD = 0) →
      10 * WAD ≤ (Decimal.fromNat 1000).val)) :=
  ⟨by decide, by decide, by decide,
    C5_fee_bounds_amended
      { borrow_fee_wad := 10000000000000000, flash_loan_fee_wad := 0,
        host_fee_percentage := 20 }
      (Decimal.fromNat 1000) .Exclusive 10 2 (by decide) (by decide) (by decide)⟩

theorem C6_dust_liquidation_witness :
    c6Liquidity.market_value.val ≤ Decimal.one.val ∧
    Reserve.default.calculate_liquidation 5 Obligation.default c6Liquidity
        c6Collateral =
      calculate_liquidation_dust_claimed Reserve.default Obligation.default
        c6Liquidity c6Collateral :=
  ⟨by decide,
    C6_dust_liquidation Reserve.default 5 Obligation.default c6Liquidity c6Collateral
      (by decide)⟩

theorem C8_cumulative_rate_monotone_witness :
    Reserve.default.accrue_interest 0 = .ok Reserve.default ∧
    Reserve.default.liquidity.cumulative_borrow_rate_wads.val ≤
      Reserve.default.liquidity.cumulative_borrow_rate_wads.val :=
  ⟨by decide, C8_cumulative_rate_monotone Reserve.default 0 Reserve.default (by decide)⟩

theorem ReserveLiquidity.deposit_ok {liq liq' : ReserveLiquidity} {l : Nat} :
    liq.deposit l = .ok liq' ↔
      liq.available_amount + l < U64_MOD ∧
      liq' = { liq with available_amount := liq.available_amount + l } := by
  unfold ReserveLiquidity.deposit mathOverflow
  split <;> simp_all [eq_comm]

theorem ReserveLiquidity.withdraw_ok {liq liq' : ReserveLiquidity} {l : Nat} :
    liq.withdraw l = .ok liq' ↔
      l ≤ liq.available_amount ∧
      liq' = { liq with available_amount := liq.available_amount - l } := by
  unfold ReserveLiquidity.withdraw
  split <;> simp_all [eq_comm] <;> omega

theorem ReserveCollateral.mint_ok {col col' : ReserveCollateral} {c : Nat} :
    col.mint c = .ok col' ↔
      col.mint_total_supply + c < U64_MOD ∧
      col' = { col with mint_total_supply := col.mint_total_supply + c } := by
  unfold ReserveCollateral.mint mathOverflow
  split <;> simp_all [eq_comm]

theorem ReserveCollateral.burn_ok {col col' : ReserveCollateral} {c : Nat} :
    col.burn c = .ok col' ↔
      c ≤ col.mint_total_supply ∧
      col' = { col with mint_total_supply := col.mint_total_supply - c } := by
  unfold ReserveCollateral.burn mathOverflow
  split <;> simp_all [eq_comm]

/-- Claim C7 (corrected): a deposit-then-redeem round trip exactly restores `mint_total_supply` and changes no field except `liquidity.available_amount`; the available amount can drift by more than one unit. -/
theorem C7_deposit_redeem_amended (r r₁ r₂ : Reserve) (l c l' : Nat)
    (hd : r.deposit_liquidity l = .ok (r₁, c))
    (hr : r₁.redeem_collateral c = .ok (r₂, l')) :
    r₂.collateral.mint_total_supply = r.collateral.mint_total_supply ∧
    l' ≤ r.liquidity.available_amount + l ∧
    r₂ = { r with liquidity := { r.liquidity with
      available_amount := r.liquidity.available_amount + l - l' } } := by
  unfold Reserve.deposit_liquidity at hd
  rw [except_bind_ok] at hd
  obtain ⟨e, -, hd⟩ := hd
  rw [except_bind_ok] at hd
  obtain ⟨ca, -, hd⟩ := hd
  rw [except_bind_ok] at hd
  obtain ⟨liq1, hliq1, hd⟩ := hd
  rw [except_bind_ok] at hd
  obtain ⟨col1, hcol1, hd⟩ := hd
  injection hd with hd
  rw [Prod.mk.injEq] at hd
  obtain ⟨hr1, hca⟩ := hd
  subst hca
  rw [ReserveLiquidity.deposit_ok] at hliq1
  obtain ⟨hlt, hliq1⟩ := hliq1
  rw [ReserveCollateral.mint_ok] at hcol1
  obtain ⟨-, hcol1⟩ := hcol1
  subst hliq1
  subst hcol1
  unfold Reserve.redeem_collateral at hr
  rw [except_bind_ok] at hr
  obtain ⟨e1, -, hr⟩ := hr
  rw [except_bind_ok] at hr
  obtain ⟨la, -, hr⟩ := hr
  rw [except_bind_ok] at hr
  obtain ⟨col2, hcol2, hr⟩ := hr
  rw [except_bind_ok] at hr
  obtain ⟨liq2, hliq2, hr⟩ := hr
  injection hr with hr
  rw [Prod.mk.injEq] at hr
  obtain ⟨hr2, hla⟩ := hr
  subst hla
  rw [ReserveCollateral.burn_ok] at hcol2
  obtain ⟨-, hcol2⟩ := hcol2
  rw [ReserveLiquidity.withdraw_ok] at hliq2
  obtain ⟨hwd, hliq2⟩ := hliq2
  subst hcol2
  subst hliq2
  subst hr1
  subst hr2
  simp only [] at hwd
  refine ⟨by simp only []; omega, by simpa using hwd, ?_⟩
  obtain ⟨ver, lu, lm, liq, col, cfg, rl⟩ := r
  obtain ⟨mp, md, sp, po, so, av, bor, cum, fees, mpx, smp⟩ := liq
  obtain ⟨cmp, mts, csp⟩ := col
  simp only [Reserve.mk.injEq, ReserveLiquidity.mk.injEq,
    ReserveCollateral.mk.injEq, and_true, true_and]
  simp only [] at hwd
  omega

/-- Claim C7, counterexample: with one collateral token against three units of liquidity, depositing two units mints nothing and the available amount ends two units above its start. -/
theorem C7_deposit_redeem_counterexample :
    c7Reserve.deposit_liquidity 2 = .ok (c7Mid, 0) ∧
    c7Mid.redeem_collateral 0 = .ok (c7Mid, 0) ∧
    c7Reserve.liquidity.available_amount + 2 =
      c7Mid.liquidity.available_amount := by decide

theorem C7_deposit_redeem_amended_witness :
    c7Reserve.deposit_liquidity 2 = .ok (c7Mid, 0) ∧
    c7Mid.redeem_collateral 0 = .ok (c7Mid, 0) ∧
    (c7Mid.collateral.mint_total_supply = c7Reserve.collateral.mint_total_supply ∧
    0 ≤ c7Reserve.liquidity.available_amount + 2 ∧
    c7Mid = { c7Reserve with liquidity := { c7Reserve.liquidity with
      available_amount := c7Reserve.liquidity.available_amount + 2 - 0 } }) :=
  ⟨by decide, by decide,
    C7_deposit_redeem_amended c7Reserve c7Mid c7Mid 2 0 0 (by decide) (by decide)⟩

set_option maxRecDepth 100000 in
/-- Claim C9, counterexample: a record storing liquidation bonus 10 and max bonus 3 decodes to max bonus 10, not the stored 3. -/
theorem C9_unpack_backfill_counterexample :
    Reserve.unpack_from_slice c9Reserve.pack_into_slice = .ok c9Unpacked ∧
    ¬ unpack_max_fields_claimed c9Reserve.pack_into_slice c9Unpacked.config := by
  decide

/-- Claim C9 (corrected): `unpack_from_slice` sets each `max_*` field to the maximum of the stored byte and the corresponding non-max field (not the stored value when nonzero), caps `protocol_liquidation_fee` at 50 deca-bps and keeps `super_max_borrow_rate` at least `max_borrow_rate`. -/
theorem C9_unpack_backfill_amended (input : List Nat) (r : Reserve)
    (h : Reserve.unpack_from_slice input = .ok r) :
    r.config.max_liquidation_bonus =
      Nat.max (leDecode (chunk input 301 1)) (leDecode (chunk input 479 1)) ∧
    r.config.max_liquidation_threshold =
      Nat.max (leDecode (chunk input 302 1)) (leDecode (chunk input 480 1)) ∧
    r.config.max_utilization_rate =
      Nat.max (leDecode (chunk input 299 1)) (leDecode (chunk input 470 1)) ∧
    r.config.protocol_liquidation_fee =
      Nat.min (leDecode (chunk input 371 1)) MAX_PROTOCOL_LIQUIDATION_FEE_DECA_BPS ∧
    r.config.max_borrow_rate ≤ r.config.super_max_borrow_rate := by
  unfold Reserve.unpack_from_slice at h
  simp only [] at h
  split at h
  next => exact Except.noConfusion h
  next =>
    split at h
    next => exact Except.noConfusion h
    next =>
      rw [except_bind_ok] at h
      obtain ⟨stale, -, h⟩ := h
      rw [except_bind_ok] at h
      obtain ⟨rty, -, h⟩ := h
      rw [except_bind_ok] at h
      obtain ⟨rl, -, h⟩ := h
      injection h with h
      subst h
      refine ⟨rfl, rfl, rfl, rfl, Nat.le_max_left _ _⟩

theorem leBytes_length (k n : Nat) : (leBytes k n).length = k := by
  induction k generalizing n with
  | zero => rfl
  | succ k ih => simp [leBytes, ih]

theorem leDecode_leBytes (k n : Nat) (h : n < 256 ^ k) :
    leDecode (leBytes k n) = n := by
  induction k generalizing n with
  | zero => simp [leBytes, leDecode] at h ⊢; omega
  | succ k ih =>
    have hd : n / 256 < 256 ^ k :=
      Nat.div_lt_of_lt_mul (by rw [pow_succ] at h; omega)
    simp [leBytes, leDecode, ih _ hd]
    omega

theorem chunk_skip (a b : List Nat) (off len : Nat) (h : a.length ≤ off) :
    chunk (a ++ b) off len = chunk b (off - a.length) len := by
  unfold chunk
  rw [List.drop_append_eq_append_drop, List.drop_eq_nil_of_le h, List.nil_append]

theorem chunk_start (a b : List Nat) (len : Nat) (h : a.length = len) :
    chunk (a ++ b) 0 len = a := by
  unfold chunk
  rw [List.drop_zero, List.take_left' h]

theorem chunk_all (l : List Nat) (len : Nat) (h : l.length = len) :
    chunk l 0 len = l := by
  unfold chunk
  rw [List.drop_zero, List.take_of_length_le (Nat.le_of_eq h)]

theorem pack_bool_length (b : Bool) : (pack_bool b).length = 1 := by
  cases b <;> rfl

theorem pack_decimal_length (d : Decimal) : (pack_decimal d).length = 16 :=
  leBytes_length 16 _

theorem RateLimiter.pack_length_rl (rl : RateLimiter) :
    rl.pack_into_slice.length = 56 := by
  simp [RateLimiter.pack_into_slice, leBytes_length]

theorem Reserve.pack_length (r : Reserve) :
    r.pack_into_slice.length = RESERVE_LEN := by
  simp only [Reserve.pack_into_slice, List.length_append, leBytes_length,
    pack_bool_length, pack_decimal_length, RateLimiter.pack_length_rl,
    List.length_replicate, RESERVE_LEN]

theorem RateLimiter.unpack_pack (rl : RateLimiter)
    (h1 : rl.config.max_outflow < 2 ^ 64)
    (h2 : rl.config.window_duration < 2 ^ 64)
    (h3 : rl.prev_qty.val < 2 ^ 128)
    (h4 : rl.window_start < 2 ^ 64)
    (h5 : rl.cur_qty.val < 2 ^ 128) :
    RateLimiter.unpack_from_slice rl.pack_into_slice = .ok rl := by
  obtain ⟨⟨wd, mo⟩, ⟨pv⟩, ws, ⟨cv⟩⟩ := rl
  simp only [] at h1 h2 h3 h4 h5
  unfold RateLimiter.unpack_from_slice RateLimiter.pack_into_slice
  simp only [List.append_assoc, chunk_skip, chunk_start, chunk_all,
    leBytes_length, Nat.reduceLeDiff, Nat.reduceSub]
  rw [leDecode_leBytes 8 mo (by norm_num; omega),
    leDecode_leBytes 8 wd (by norm_num; omega),
    leDecode_leBytes 16 pv (by norm_num; omega),
    leDecode_leBytes 8 ws (by norm_num; omega),
    leDecode_leBytes 16 cv (by norm_num; omega)]

theorem unpack_pack_bool (b : Bool) : unpack_bool (pack_bool b) = .ok b := by
  cases b <;> rfl

theorem ReserveType.from_u8_to_u8 (t : ReserveType) :
    ReserveType.from_u8 t.to_u8 = .ok t := by
  cases t <;> rfl

theorem nat_max_right {a b : Nat} (h : a ≤ b) : Nat.max a b = b :=
  Nat.max_eq_right h

theorem nat_min_left {a b : Nat} (h : a ≤ b) : Nat.min a b = a :=
  Nat.min_eq_left h

/-- Claim C10 (confirmed): for a machine-ranged reserve with a current version and the load-time orderings already satisfied, unpacking its packed record returns the identical reserve. -/
theorem C10_pack_unpack_roundtrip (r : Reserve) (hwf : r.WF)
    (hv0 : r.version ≠ 0)
    (hv : r.version ≤ PROGRAM_VERSION)
    (ho1 : r.config.optimal_utilization_rate ≤ r.config.max_utilization_rate)
    (ho2 : r.config.liquidation_bonus ≤ r.config.max_liquidation_bonus)
    (ho3 : r.config.liquidation_threshold ≤ r.config.max_liquidation_threshold)
    (ho4 : r.config.max_borrow_rate ≤ r.config.super_max_borrow_rate)
    (ho5 : r.config.protocol_liquidation_fee ≤
      MAX_PROTOCOL_LIQUIDATION_FEE_DECA_BPS) :
    Reserve.unpack_from_slice r.pack_into_slice = .ok r := by
  unfold Reserve.unpack_from_slice
  rw [if_neg (not_not_intro (Reserve.pack_length r))]
  obtain ⟨ver, ⟨slot, stale⟩, lm, liq, col, cfg, rl⟩ := r
  obtain ⟨mp, md, sp, po, so, av, ⟨bor⟩, ⟨cum⟩, ⟨fee⟩, ⟨mpx⟩, ⟨smp⟩⟩ := liq
  obtain ⟨cmp, mts, csp⟩ := col
  obtain ⟨ou, mu, ltv, lb, mlb, lt, mlt, minr, optr, maxr, supr,
    ⟨bfw, flw, hfp⟩, dl, bl, fr, plf, ptr, abw, rty⟩ := cfg
  obtain ⟨⟨wd, mo⟩, ⟨pv⟩, ws, ⟨cv⟩⟩ := rl
  obtain ⟨w1, w2, w3, w4, w5, w6, w7, w8, w9, w10, w11, w12, w13, w14, w15,
    w16, w17, wcfg, w19, w20, w21, w22, w23⟩ := hwf
  obtain ⟨x1, x2, x3, x4, x5, x6, x7, x8, x9, x10, x11, x12, x13, x14, x15,
    x16, x17, x18, x19, x20⟩ := wcfg
  have v1 : ver < 2 ^ 8 := w1
  have v2 : slot < 2 ^ 64 := w2
  have v3 : lm < 2 ^ 256 := w3
  have v4 : mp < 2 ^ 256 := w4
  have v5 : md < 2 ^ 8 := w5
  have v6 : sp < 2 ^ 256 := w6
  have v7 : po < 2 ^ 256 := w7
  have v8 : so < 2 ^ 256 := w8
  have v9 : av < 2 ^ 64 := w9
  have v10 : bor < 2 ^ 128 := w10
  have v11 : cum < 2 ^ 128 := w11
  have v12 : fee < 2 ^ 128 := w12
  have v13 : mpx < 2 ^ 128 := w13
  have v14 : smp < 2 ^ 128 := w14
  have v15 : cmp < 2 ^ 256 := w15
  have v16 : mts < 2 ^ 64 := w16
  have v17 : csp < 2 ^ 256 := w17
  have v19 : mo < 2 ^ 64 := w19
  have v20 : wd < 2 ^ 64 := w20
  have v21 : pv < 2 ^ 128 := w21
  have v22 : ws < 2 ^ 64 := w22
  have v23 : cv < 2 ^ 128 := w23
  have y1 : ou < 2 ^ 8 := x1
  have y2 : mu < 2 ^ 8 := x2
  have y3 : ltv < 2 ^ 8 := x3
  have y4 : lb < 2 ^ 8 := x4
  have y5 : mlb < 2 ^ 8 := x5
  have y6 : lt < 2 ^ 8 := x6
  have y7 : mlt < 2 ^ 8 := x7
  have y8 : minr < 2 ^ 8 := x8
  have y9 : optr < 2 ^ 8 := x9
  have y10 : maxr < 2 ^ 8 := x10
  have y11 : supr < 2 ^ 64 := x11
  have y12 : bfw < 2 ^ 64 := x12
  have y13 : flw < 2 ^ 64 := x13
  have y14 : hfp < 2 ^ 8 := x14
  have y15 : dl < 2 ^ 64 := x15
  have y16 : bl < 2 ^ 64 := x16
  have y17 : fr < 2 ^ 256 := x17
  have y18 : plf < 2 ^ 8 := x18
  have y19 : ptr < 2 ^ 8 := x19
  have y20 : abw < 2 ^ 64 := x20
  have hv2 : ver ≤ PROGRAM_VERSION := hv
  have hq1 : ou ≤ mu := ho1
  have hq2 : lb ≤ mlb := ho2
  have hq3 : lt ≤ mlt := ho3
  have hq4 : maxr ≤ supr := ho4
  have hq5 : plf ≤ MAX_PROTOCOL_LIQUIDATION_FEE_DECA_BPS := ho5
  norm_num at v10 v11 v12 v13 v14 v21 v23
  unfold Reserve.pack_into_slice
  simp only [] 
  simp only [RATE_LIMITER_LEN, List.append_assoc, chunk_skip, chunk_start,
    chunk_all, leBytes_length, pack_bool_length, pack_decimal_length,
    RateLimiter.pack_length_rl, List.length_replicate, Nat.reduceLeDiff,
    Nat.reduceSub]
  rw [leDecode_leBytes 1 ver (by norm_num; omega)]
  rw [if_neg (by simp only [PROGRAM_VERSION] at hv2 ⊢; omega)]
  rw [unpack_pack_bool, except_ok_bind]
  rw [leDecode_leBytes 1 (ReserveType.to_u8 rty) (by cases rty <;> decide)]
  rw [ReserveType.from_u8_to_u8, except_ok_bind]
  rw [RateLimiter.unpack_pack _ v19 v20 v21 v22 v23, except_ok_bind]
  rw [leDecode_leBytes 8 slot (by norm_num; omega),
    leDecode_leBytes 32 lm (lt_of_lt_of_le v3 (by norm_num)),
    leDecode_leBytes 32 mp (lt_of_lt_of_le v4 (by norm_num)),
    leDecode_leBytes 1 md (by norm_num; omega),
    leDecode_leBytes 32 sp (lt_of_lt_of_le v6 (by norm_num)),
    leDecode_leBytes 32 po (lt_of_lt_of_le v7 (by norm_num)),
    leDecode_leBytes 32 so (lt_of_lt_of_le v8 (by norm_num)),
    leDecode_leBytes 8 av (by norm_num; omega),
    leDecode_leBytes 32 cmp (lt_of_lt_of_le v15 (by norm_num)),
    leDecode_leBytes 8 mts (by norm_num; omega),
    leDecode_leBytes 32 csp (lt_of_lt_of_le v17 (by norm_num)),
    leDecode_leBytes 1 ou (by norm_num; omega),
    leDecode_leBytes 1 mu (by norm_num; omega),
    leDecode_leBytes 1 ltv (by norm_num; omega),
    leDecode_leBytes 1 lb (by norm_num; omega),
    leDecode_leBytes 1 mlb (by norm_num; omega),
    leDecode_leBytes 1 lt (by norm_num; omega),
    leDecode_leBytes 1 mlt (by norm_num; omega),
    leDecode_leBytes 1 minr (by norm_num; omega),
    leDecode_leBytes 1 optr (by norm_num; omega),
    leDecode_leBytes 1 maxr (by norm_num; omega),
    leDecode_leBytes 8 supr (by norm_num; omega),
    leDecode_leBytes 8 bfw (by norm_num; omega),
    leDecode_leBytes 8 flw (by norm_num; omega),
    leDecode_leBytes 1 hfp (by norm_num; omega),
    leDecode_leBytes 8 dl (by norm_num; omega),
    leDecode_leBytes 8 bl (by norm_num; omega),
    leDecode_leBytes 32 fr (lt_of_lt_of_le y17 (by norm_num)),
    leDecode_leBytes 1 plf (by norm_num; omega),
    leDecode_leBytes 1 ptr (by norm_num; omega),
    leDecode_leBytes 8 abw (by norm_num; omega)]
  simp only [unpack_decimal, pack_decimal]
  rw [leDecode_leBytes 16 bor (by norm_num; omega),
    leDecode_leBytes 16 cum (by norm_num; omega),
    leDecode_leBytes 16 fee (by norm_num; omega),
    leDecode_leBytes 16 mpx (by norm_num; omega),
    leDecode_leBytes 16 smp (by norm_num; omega)]
  rw [nat_max_right hq1, nat_max_right hq2, nat_max_right hq3,
    nat_max_right hq4, nat_min_left hq5]

theorem C10_pack_unpack_roundtrip_witness :
    c10Reserve.WF ∧
    c10Reserve.version ≠ 0 ∧
    c10Reserve.version ≤ PROGRAM_VERSION ∧
    c10Reserve.config.optimal_utilization_rate ≤
      c10Reserve.config.max_utilization_rate ∧
    c10Reserve.config.liquidation_bonus ≤
      c10Reserve.config.max_liquidation_bonus ∧
    c10Reserve.config.liquidation_threshold ≤
      c10Reserve.config.max_liquidation_threshold ∧
    c10Reserve.config.max_borrow_rate ≤
      c10Reserve.config.super_max_borrow_rate ∧
    c10Reserve.config.protocol_liquidation_fee ≤
      MAX_PROTOCOL_LIQUIDATION_FEE_DECA_BPS ∧
    Reserve.unpack_from_slice c10Reserve.pack_into_slice = .ok c10Reserve :=
  ⟨by decide, by decide, by decide, by decide, by decide, by decide, by decide,
    by decide,
    C10_pack_unpack_roundtrip c10Reserve (by decide) (by decide) (by decide) (by decide)
      (by decide) (by decide) (by decide) (by decide)⟩

set_option maxRecDepth 100000 in
theorem C9_unpack_backfill_amended_witness :
    Reserve.unpack_from_slice Reserve.default.pack_into_slice =
      .ok Reserve.default ∧
    (Reserve.default.config.max_liquidation_bonus =
      Nat.max (leDecode (chunk Reserve.default.pack_into_slice 301 1))
        (leDecode (chunk Reserve.default.pack_into_slice 479 1)) ∧
    Reserve.default.config.max_liquidation_threshold =
      Nat.max (leDecode (chunk Reserve.default.pack_into_slice 302 1))
        (leDecode (chunk Reserve.default.pack_into_slice 480 1)) ∧
    Reserve.default.config.max_utilization_rate =
      Nat.max (leDecode (chunk Reserve.default.pack_into_slice 299 1))
        (leDecode (chunk Reserve.default.pack_into_slice 470 1)) ∧
    Reserve.default.config.protocol_liquidation_fee =
      Nat.min (leDecode (chunk Reserve.default.pack_into_slice 371 1))
        MAX_PROTOCOL_LIQUIDATION_FEE_DECA_BPS ∧
    Reserve.default.config.max_borrow_rate ≤
      Reserve.default.config.super_max_borrow_rate) :=
  ⟨by decide,
    C9_unpack_backfill_amended Reserve.default.pack_into_slice Reserve.default
      (by decide)⟩
